import Mathlib

/-!
# lide.device: request dispatch, worker task and SCSI translation

A shallow embedding of `src/driver.c` (`open`, `begin_io`, `td_get_geometry`) and
`src/idetask.c` (`handle_scsi_command`, `ide_task`), and a model of the
Change-Detection Task, whose body is not among the sources, followed by theorems
about the embedded functions.

Conventions of the embedding

* Machine integers are `Nat` (unsigned) or `Int` (signed); every place where the
  C arithmetic can wrap carries an explicit reduction modulo `2 ^ w`.
* Memory reached through a pointer is a typed view: a byte buffer is a function
  from offsets to bytes, a structure is a Lean structure.  A pointer that the
  code compares with `NULL` is an `Option`.
* The hardware layer (`ata_transfer`, `ata_identify`) and the allocator are not
  part of the sources; they are fields of an environment `Env`, and every
  invocation of the transfer primitive is recorded in a list of calls.
* The target is a big-endian m68k: multi-byte fields of packed structures are
  read and written most significant byte first.
-/

namespace Lide

/-! ## Constants of the operating-system headers

Error codes, standard opcodes and flags of the AmigaOS include files
(`exec/errors.h`, `exec/io.h`, `exec/memory.h`, `devices/trackdisk.h`,
`devices/scsidisk.h`). -/

/-- Value of `IOERR_OPENFAIL` in `exec/errors.h`. -/
def IOERR_OPENFAIL : Int := -1
/-- Value of `IOERR_NOCMD` in `exec/errors.h`. -/
def IOERR_NOCMD : Int := -3
/-- Value of `IOERR_BADLENGTH` in `exec/errors.h`. -/
def IOERR_BADLENGTH : Int := -4
/-- Value of `IOERR_BADADDRESS` in `exec/errors.h`. -/
def IOERR_BADADDRESS : Int := -5
/-- Value of `TDERR_NotSpecified` in `devices/trackdisk.h`. -/
def TDERR_NotSpecified : Int := 20
/-- Value of `TDERR_DiskChanged` in `devices/trackdisk.h`. -/
def TDERR_DiskChanged : Int := 29
/-- Value of `TDERR_BadUnitNum` in `devices/trackdisk.h`. -/
def TDERR_BadUnitNum : Int := 32
/-- Value of `HFERR_BadStatus` in `devices/scsidisk.h`. -/
def HFERR_BadStatus : Int := 45

def CMD_READ : Nat := 2
def CMD_WRITE : Nat := 3
def CMD_UPDATE : Nat := 4
def CMD_CLEAR : Nat := 5
def TD_MOTOR : Nat := 9
def TD_FORMAT : Nat := 11
def TD_CHANGENUM : Nat := 13
def TD_CHANGESTATE : Nat := 14
def TD_PROTSTATUS : Nat := 15
def TD_GETDRIVETYPE : Nat := 18
def TD_ADDCHANGEINT : Nat := 20
def TD_REMCHANGEINT : Nat := 21
def TD_GETGEOMETRY : Nat := 22
def TD_EJECT : Nat := 23
def HD_SCSICMD : Nat := 28

/-- Bit 0 of `io_Flags` (`exec/io.h`). -/
def IOF_QUICK : Nat := 1
/-- Value of `MEMF_PUBLIC` in `exec/memory.h`. -/
def MEMF_PUBLIC : Nat := 1
/-- Value of `DGF_REMOVABLE` in `devices/trackdisk.h`. -/
def DGF_REMOVABLE : Nat := 1
/-- Size in bytes of `struct DriveGeometry` (`devices/trackdisk.h`). -/
def sizeof_DriveGeometry : Nat := 32

/-! ## Constants of `idetask.h` and `scsi.h` -/

/-- The shutdown opcode of `idetask.h`. -/
def CMD_DIE : Nat := 0x1000
/-- The opcode `CMD_DIE + 1` of `idetask.h`. -/
def CMD_XFER : Nat := CMD_DIE + 1

def SCSI_CMD_TEST_UNIT_READY : Nat := 0x00
def SCSI_CMD_READ_6 : Nat := 0x08
def SCSI_CMD_WRITE_6 : Nat := 0x0A
def SCSI_CMD_INQUIRY : Nat := 0x12
def SCSI_CMD_READ_CAPACITY_10 : Nat := 0x25
def SCSI_CMD_READ_10 : Nat := 0x28
def SCSI_CMD_WRITE_10 : Nat := 0x2A
def SCSI_CHECK_CONDITION : Nat := 0x02
/-- Size in bytes of the packed `struct SCSI_Inquiry` of `scsi.h`. -/
def sizeof_SCSI_Inquiry : Nat := 5 + 3 + 8 + 16 + 4 + 8

/-! ## Constants of headers of the repository that are not among the sources

`td64.h`, `newstyle.h`, `ata.h` and `device.h` are included by `driver.c` and
`idetask.c` but are not available; `scsi.h` as available lacks the MODE SENSE
opcode.  The spec names the commands without giving numbers; the values are the
ones of the TD64 and New Style Device standards, of the SCSI and ATA standards,
and the four units (two channels, two drives each) that `init_device` probes. -/

/-- Modelled from the spec: opcode of the 64-bit-offset read of `td64.h`. -/
def TD_READ64 : Nat := 24
/-- Modelled from the spec: opcode of the 64-bit-offset write of `td64.h`. -/
def TD_WRITE64 : Nat := 25
/-- Modelled from the spec: opcode of the 64-bit-offset format of `td64.h`. -/
def TD_FORMAT64 : Nat := 27
/-- Modelled from the spec: opcode of the device-capability query of `newstyle.h`. -/
def NSCMD_DEVICEQUERY : Nat := 0x4000
/-- Modelled from the spec: opcode of the New Style 64-bit read of `newstyle.h`. -/
def NSCMD_TD_READ64 : Nat := 0xC000
/-- Modelled from the spec: opcode of the New Style 64-bit write of `newstyle.h`. -/
def NSCMD_TD_WRITE64 : Nat := 0xC001
/-- Modelled from the spec: opcode of the New Style 64-bit format of `newstyle.h`. -/
def NSCMD_TD_FORMAT64 : Nat := 0xC003
/-- Modelled from the spec: device type `NSDEVTYPE_TRACKDISK` of `newstyle.h`. -/
def NSDEVTYPE_TRACKDISK : Nat := 5
/-- Modelled from the spec: size in bytes of `struct NSDeviceQueryResult` of `newstyle.h`. -/
def sizeof_NSDeviceQueryResult : Nat := 16
/-- Modelled from the spec: the MODE SENSE(6) opcode, which `scsi.h` as available
does not define. -/
def SCSI_CMD_MODE_SENSE_6 : Nat := 0x1A
/-- Modelled from the spec: word index of the serial number in the identify
block (`ata.h`). -/
def ata_identify_serial : Nat := 10
/-- Modelled from the spec: word index of the firmware revision in the identify
block (`ata.h`). -/
def ata_identify_fw_rev : Nat := 23
/-- Modelled from the spec: word index of the model string in the identify block
(`ata.h`). -/
def ata_identify_model : Nat := 27
/-- Modelled from the spec: number of entries of the unit registry `dev->units`
(`MAX_UNITS` of `device.h`). -/
def MAX_UNITS : Nat := 4

/-! ## Machine integers -/

/-- Conversion of an integer to `UBYTE`. -/
def toUBYTE (x : Int) : Nat := (x % 256).toNat

/-- Conversion of an unsigned value to the signed `BYTE` with the same bits. -/
def toBYTE (n : Nat) : Int := if n % 256 < 128 then ((n % 256 : Nat) : Int) else ((n % 256 : Nat) : Int) - 256

/-- Conversion of an integer to `ULONG`. -/
def toULONG (x : Int) : Nat := (x % 4294967296).toNat

/-- Conversion of a 64-bit pattern to the signed `long long` it denotes. -/
def toLONGLONG (n : Nat) : Int :=
  if n % 2 ^ 64 < 2 ^ 63 then ((n % 2 ^ 64 : Nat) : Int) else ((n % 2 ^ 64 : Nat) : Int) - 2 ^ 64

/-! ## Byte buffers -/

/-- Memory behind a byte pointer, indexed by offset. -/
abbrev Buffer := Nat → Nat

/-- Load of one `UBYTE`. -/
def ldb (b : Buffer) (i : Nat) : Nat := b i % 256

/-- Store of one `UBYTE` (the value is truncated to 8 bits). -/
def stb (b : Buffer) (i : Nat) (v : Nat) : Buffer := fun j => if j = i then v % 256 else b j

/-- Big-endian load of a `UWORD`. -/
def ldw (b : Buffer) (i : Nat) : Nat := ldb b i * 256 + ldb b (i + 1)

/-- Big-endian load of a `ULONG`. -/
def ldl (b : Buffer) (i : Nat) : Nat :=
  ldb b i * 16777216 + ldb b (i + 1) * 65536 + ldb b (i + 2) * 256 + ldb b (i + 3)

/-- Big-endian store of a `ULONG`. -/
def stl (b : Buffer) (i : Nat) (v : Nat) : Buffer :=
  stb (stb (stb (stb b i (v / 16777216)) (i + 1) (v / 65536)) (i + 2) (v / 256)) (i + 3) v

/-- The effect of `CopyMem(src + so, dst + d, n)`. -/
def CopyMem (src : Buffer) (so : Nat) (dst : Buffer) (d : Nat) (n : Nat) : Buffer :=
  fun j => if d ≤ j ∧ j < d + n then ldb src (so + (j - d)) else dst j

/-- The statement `data[idx++] = v` with a `UBYTE` index, repeated for a list of values. -/
def emit (st : Buffer × Nat) (bytes : List Nat) : Buffer × Nat :=
  bytes.foldl (fun s v => (stb s.1 s.2 v, (s.2 + 1) % 256)) st

/-! ## Data model -/

/-- Modelled from the spec: `struct IDEUnit` of `device.h`, which is not among the
sources.  The record holds the attributes of a Unit that `driver.c` and
`idetask.c` read or write, under the field names the code uses. -/
structure IDEUnit where
  present : Bool
  atapi : Bool
  mediumPresent : Bool
  unitOpened : Bool
  device_type : Nat
  change_count : Nat
  cylinders : Nat
  heads : Nat
  sectorsPerTrack : Nat
  blockSize : Nat
  blockShift : Nat
  logicalSectors : Nat

/-- Modelled from the spec: the field types of `struct IDEUnit` (`device.h`, not
among the sources).  A unit is well typed when each number fits the width its
uses in the code show: `device_type` a `UBYTE`, `logicalSectors` a `ULONG`, the
other numbers `UWORD`. -/
def IDEUnit.wf (u : IDEUnit) : Prop :=
  u.device_type < 2 ^ 8 ∧ u.change_count < 2 ^ 16 ∧ u.cylinders < 2 ^ 16 ∧ u.heads < 2 ^ 16 ∧
  u.sectorsPerTrack < 2 ^ 16 ∧ u.blockSize < 2 ^ 16 ∧ u.blockShift < 2 ^ 16 ∧
  u.logicalSectors < 2 ^ 32

instance (u : IDEUnit) : Decidable u.wf := by
  unfold IDEUnit.wf
  infer_instance

/-- Modelled from the spec: the transfer direction `enum xfer_dir` of `ata.h`,
Read or Write. -/
inductive xfer_dir
  | READ
  | WRITE
  deriving DecidableEq, Repr

/-- One invocation `ata_transfer(data, lba, count, &actual, unit, direction)`:
the buffer contents and the value of the out-parameter at the time of the call. -/
structure XferCall where
  data : Buffer
  lba : Nat
  count : Nat
  actual : Nat
  unit : IDEUnit
  direction : xfer_dir

/-- What an invocation of the transfer primitive leaves behind: the returned
`BYTE` status, the out-parameter and the buffer. -/
structure XferOut where
  status : Int
  actual : Nat
  data : Buffer

/-- The external collaborators.  `ata_transfer` answers from the calls made
before and the present call; `AllocMem` tells whether the 512-byte allocation of
INQUIRY succeeds; `ata_identify` yields the identify block or fails;
`nullUnit` is the record that a read through a `NULL` unit pointer finds. -/
structure Env where
  ata_transfer : List XferCall → XferCall → XferOut
  AllocMem : Bool
  ata_identify : IDEUnit → Option Buffer
  nullUnit : IDEUnit

/-- The fields of `struct SCSICmd` that `handle_scsi_command` touches. -/
structure SCSICmd where
  scsi_Data : Option Buffer
  scsi_Length : Nat
  scsi_Actual : Nat
  scsi_Command : Buffer
  scsi_CmdLength : Nat
  scsi_CmdActual : Nat
  scsi_Status : Nat
  scsi_SenseActual : Nat

/-- The record `struct DriveGeometry` of `devices/trackdisk.h`. -/
structure DriveGeometry where
  dg_SectorSize : Nat
  dg_TotalSectors : Nat
  dg_Cylinders : Nat
  dg_CylSectors : Nat
  dg_Heads : Nat
  dg_TrackSectors : Nat
  dg_BufMemType : Nat
  dg_DeviceType : Nat
  dg_Flags : Nat
  dg_Reserved : Nat
  deriving DecidableEq, Repr

/-- Modelled from the spec: the record `struct NSDeviceQueryResult` of
`newstyle.h`, the answer to the device-capability query. -/
structure NSDeviceQueryResult where
  DevQueryFormat : Nat
  SizeAvailable : Nat
  DeviceType : Nat
  DeviceSubType : Nat
  SupportedCommands : List Nat
  deriving DecidableEq, Repr

/-- The memory behind `io_Data`, seen through the type each command gives it. -/
structure IODataView where
  buffer : Buffer
  geometry : DriveGeometry
  scsi : SCSICmd
  query : NSDeviceQueryResult

/-- The fields of `struct IOStdReq`.  `io_Message` names the message node, that is
the identity of the request; `io_Unit` is `none` for a `NULL` pointer and else
the index of the entry of `dev->units` it points to. -/
structure IOStdReq where
  io_Message : Nat
  io_Unit : Option (Fin MAX_UNITS)
  io_Command : Nat
  io_Flags : Nat
  io_Error : Int
  io_Actual : Nat
  io_Length : Nat
  io_Data : IODataView
  io_Offset : Nat

/-- Modelled from the spec: `struct DeviceBase` of `device.h`, which is not among
the sources, with the fields in use.  `driver.c` names the worker fields
`IDETask`, `IDETaskMP`, `IDETaskActive`, `idetask.c` names them `Task`,
`TaskMP`, `TaskActive`; each file is embedded with the names it uses, and no
statement below relates the two groups. -/
structure DeviceBase where
  units : Fin MAX_UNITS → IDEUnit
  IDETask : Option Nat
  IDETaskMP : Option Nat
  IDETaskActive : Bool
  Task : Option Nat
  TaskMP : Option Nat
  TaskActive : Bool
  is_open : Bool
  lib_OpenCnt : Nat

/-- The record behind a unit pointer. -/
def derefUnit (env : Env) (dev : DeviceBase) : Option (Fin MAX_UNITS) → IDEUnit
  | none => env.nullUnit
  | some i => dev.units i

/-! ## `handle_scsi_command` (idetask.c) -/

/-- The state of `handle_scsi_command` when its `switch` is left: the local
`UBYTE error`, the command block, and the invocations of the transfer primitive. -/
structure ScsiSwitch where
  error : Nat
  cmd : SCSICmd
  calls : List XferCall

/-- The bytes the MODE SENSE branch writes for page 0x03 (Format Parameters). -/
def mode_page_03 (unit : IDEUnit) : List Nat :=
  [0x03, 0x16] ++ List.replicate 8 0 ++
    [unit.sectorsPerTrack >>> 8, unit.sectorsPerTrack, unit.blockSize >>> 8, unit.blockSize] ++
    List.replicate 12 0

/-- The bytes the MODE SENSE branch writes for page 0x04 (Rigid Drive Geometry). -/
def mode_page_04 (unit : IDEUnit) : List Nat :=
  [0x04, 0x16, 0, unit.cylinders >>> 8, unit.cylinders, unit.heads] ++ List.replicate 19 0

/-- The branch `case SCSI_CMD_INQUIRY`.  The header stores go through `data`
without a `NULL` test; a `NULL` buffer stays `none` here. -/
def scsi_inquiry (env : Env) (unit : IDEUnit) (sc : SCSICmd) : ScsiSwitch :=
  let data1 := sc.scsi_Data.map fun d =>
    stb (stb (stb (stb (stb d 0 unit.device_type) 1 0) 2 2) 3 2) 4 (sizeof_SCSI_Inquiry - 4)
  let sc1 := { sc with scsi_Data := data1 }
  if env.AllocMem = false then ⟨toUBYTE HFERR_BadStatus, sc1, []⟩
  else
    match env.ata_identify unit with
    | none => ⟨toUBYTE HFERR_BadStatus, sc1, []⟩
    | some identity =>
      let data2 := data1.map fun d =>
        CopyMem identity (2 * ata_identify_serial)
          (CopyMem identity (2 * ata_identify_fw_rev)
            (CopyMem identity (2 * ata_identify_model) d 8 24) 32 4) 36 8
      ⟨0, { sc1 with scsi_Data := data2, scsi_Actual := sc.scsi_Length }, []⟩

/-- The branch `case SCSI_CMD_MODE_SENSE_6`. -/
def scsi_mode_sense_6 (unit : IDEUnit) (sc : SCSICmd) : ScsiSwitch :=
  match sc.scsi_Data with
  | none => ⟨toUBYTE IOERR_BADADDRESS, sc, []⟩
  | some data =>
    let page := ldb sc.scsi_Command 2 &&& 0x3F
    let subpage := ldb sc.scsi_Command 3
    if subpage ≠ 0 then ⟨toUBYTE HFERR_BadStatus, sc, []⟩
    else
      let d1 := stb (stb (stb (stb data 1 unit.device_type) 2 0) 3 0) 0 3
      let s0 : Buffer × Nat := (d1, 4)
      let s1 := if page = 0x3F ∨ page = 0x03 then emit s0 (mode_page_03 unit) else s0
      let s2 := if page = 0x3F ∨ page = 0x04 then emit s1 (mode_page_04 unit) else s1
      let d3 := stb s2.1 0 (ldb s2.1 0 + (s2.2 + 1))
      ⟨0, { sc with scsi_Data := some d3, scsi_Actual := ldb d3 0 + 1 }, []⟩

/-- The branch `case SCSI_CMD_READ_CAPACITY_10`. -/
def scsi_read_capacity_10 (unit : IDEUnit) (sc : SCSICmd) : ScsiSwitch :=
  match sc.scsi_Data with
  | none => ⟨toUBYTE IOERR_BADADDRESS, sc, []⟩
  | some data =>
    let d1 := stl data 0 (toULONG ((unit.logicalSectors : Int) - 1))
    let d2 := stl d1 4 unit.blockSize
    ⟨0, { sc with scsi_Data := some d2, scsi_Actual := 8 }, []⟩

/-- The code from the label `do_scsi_transfer` to its `break`: the sum
`lba + count` and the difference `logicalSectors - 1` are `ULONG` arithmetic. -/
def do_scsi_transfer (env : Env) (hist : List XferCall) (unit : IDEUnit) (sc : SCSICmd)
    (lba count : Nat) (direction : xfer_dir) : ScsiSwitch :=
  match sc.scsi_Data with
  | none => ⟨toUBYTE IOERR_BADADDRESS, sc, []⟩
  | some data =>
    if toULONG ((lba : Int) + (count : Int)) > toULONG ((unit.logicalSectors : Int) - 1) then
      ⟨toUBYTE IOERR_BADADDRESS, sc, []⟩
    else
      let call : XferCall := ⟨data, lba, count, sc.scsi_Actual, unit, direction⟩
      let out := env.ata_transfer hist call
      ⟨toUBYTE out.status, { sc with scsi_Data := some out.data, scsi_Actual := out.actual }, [call]⟩

/-- The LBA of a 6-byte CDB (`struct SCSI_CDB_6`). -/
def cdb6_lba (command : Buffer) : Nat :=
  ((ldb command 1 &&& 0x1F) <<< 16) ||| (ldb command 2 <<< 8) ||| ldb command 3

/-- The `length` field of a 6-byte CDB. -/
def cdb6_length (command : Buffer) : Nat := ldb command 4

/-- The `lba` field of a 10-byte CDB (`struct SCSI_CDB_10`, packed, offset 2). -/
def cdb10_lba (command : Buffer) : Nat := ldl command 2

/-- The `length` field of a 10-byte CDB (offset 7). -/
def cdb10_length (command : Buffer) : Nat := ldw command 7

/-- The `switch` of `handle_scsi_command`. -/
def scsi_switch (env : Env) (hist : List XferCall) (unit : IDEUnit) (sc : SCSICmd) : ScsiSwitch :=
  let command := sc.scsi_Command
  let op := ldb command 0
  if op = SCSI_CMD_TEST_UNIT_READY then ⟨0, { sc with scsi_Actual := 0 }, []⟩
  else if op = SCSI_CMD_INQUIRY then scsi_inquiry env unit sc
  else if op = SCSI_CMD_MODE_SENSE_6 then scsi_mode_sense_6 unit sc
  else if op = SCSI_CMD_READ_CAPACITY_10 then scsi_read_capacity_10 unit sc
  else if op = SCSI_CMD_READ_6 then
    do_scsi_transfer env hist unit sc (cdb6_lba command) (cdb6_length command) xfer_dir.READ
  else if op = SCSI_CMD_WRITE_6 then
    do_scsi_transfer env hist unit sc (cdb6_lba command) (cdb6_length command) xfer_dir.WRITE
  else if op = SCSI_CMD_READ_10 then
    do_scsi_transfer env hist unit sc (cdb10_lba command) (cdb10_length command) xfer_dir.READ
  else if op = SCSI_CMD_WRITE_10 then
    do_scsi_transfer env hist unit sc (cdb10_lba command) (cdb10_length command) xfer_dir.WRITE
  else ⟨toUBYTE HFERR_BadStatus, sc, []⟩

/-- The outcome of `handle_scsi_command`: the request as it is left, and the
invocations of the transfer primitive it made. -/
structure ScsiResult where
  ioreq : IOStdReq
  calls : List XferCall

/-- The function `handle_scsi_command`; `unit` is the record behind
`ioreq->io_Unit`, `hist` the invocations of the transfer primitive made before. -/
def handle_scsi_command (env : Env) (hist : List XferCall) (unit : IDEUnit) (ioreq : IOStdReq) :
    ScsiResult :=
  let r := scsi_switch env hist unit ioreq.io_Data.scsi
  let sc : SCSICmd :=
    { r.cmd with
      scsi_CmdActual := r.cmd.scsi_CmdLength
      scsi_Status := if r.error ≠ 0 then SCSI_CHECK_CONDITION else 0
      scsi_SenseActual := 0 }
  ⟨{ ioreq with io_Error := toBYTE r.error, io_Data := { ioreq.io_Data with scsi := sc } }, r.calls⟩

/-! ## `ide_task` (idetask.c) -/

/-- What the worker task has done so far: the device base as it left it, the
invocations of the transfer primitive and the `ReplyMsg` calls (oldest first),
and whether the task still exists (`RemTask(NULL)` not yet run). -/
structure WorkerState where
  dev : DeviceBase
  calls : List XferCall
  replies : List IOStdReq
  alive : Bool

/-- The block address of a native request: the `long long` value
`(long long)io_Actual << 32 | io_Offset`, shifted right arithmetically and
converted to the `ULONG` variable `lba`. -/
def native_lba (ioreq : IOStdReq) (blockShift : Nat) : Nat :=
  toULONG (toLONGLONG ((ioreq.io_Actual <<< 32) ||| ioreq.io_Offset) >>> blockShift)

/-- The block count of a native request, `io_Length >> blockShift`. -/
def native_count (ioreq : IOStdReq) (blockShift : Nat) : Nat :=
  ioreq.io_Length >>> blockShift

/-- The shared body of the read, write and format cases of `ide_task`, up to
its `break`.  The status of the primitive is stored in the `BYTE` field
`io_Error`. -/
def ide_task_transfer (env : Env) (hist : List XferCall) (unit : IDEUnit) (ioreq : IOStdReq)
    (direction : xfer_dir) : IOStdReq × List XferCall :=
  let blockShift := unit.blockShift
  let lba := native_lba ioreq blockShift
  let count := native_count ioreq blockShift
  if toULONG ((lba : Int) + (count : Int)) > toULONG ((unit.logicalSectors : Int) - 1) then
    ({ ioreq with io_Error := IOERR_BADADDRESS }, [])
  else
    let call : XferCall := ⟨ioreq.io_Data.buffer, lba, count, ioreq.io_Actual, unit, direction⟩
    let out := env.ata_transfer hist call
    ({ ioreq with
        io_Error := toBYTE (toUBYTE out.status)
        io_Actual := out.actual
        io_Data := { ioreq.io_Data with buffer := out.data } }, [call])

/-- One pass through the body of the inner `while` loop of `ide_task`: the
`switch` on `io_Command` and the `ReplyMsg` behind it.  The `CMD_DIE` case
replies itself and removes the task. -/
def ide_task_request (env : Env) (s : WorkerState) (ioreq : IOStdReq) : WorkerState :=
  let unit := derefUnit env s.dev ioreq.io_Unit
  let c := ioreq.io_Command
  if c = CMD_READ ∨ c = TD_READ64 ∨ c = NSCMD_TD_READ64 then
    let r := ide_task_transfer env s.calls unit ioreq xfer_dir.READ
    { s with calls := s.calls ++ r.2, replies := s.replies ++ [r.1] }
  else if c = CMD_WRITE ∨ c = TD_WRITE64 ∨ c = TD_FORMAT64 ∨ c = NSCMD_TD_WRITE64 ∨
      c = NSCMD_TD_FORMAT64 then
    let r := ide_task_transfer env s.calls unit ioreq xfer_dir.WRITE
    { s with calls := s.calls ++ r.2, replies := s.replies ++ [r.1] }
  else if c = HD_SCSICMD then
    let r := handle_scsi_command env s.calls unit ioreq
    { s with calls := s.calls ++ r.calls, replies := s.replies ++ [r.ioreq] }
  else if c = CMD_DIE then
    { s with
      dev := { s.dev with TaskMP := none, Task := none, TaskActive := false }
      replies := s.replies ++ [ioreq]
      alive := false }
  else
    { s with replies := s.replies ++ [{ ioreq with io_Error := IOERR_NOCMD, io_Actual := 0 }] }

/-- The main loop of `ide_task` over the messages that arrive at its port, in
the order `GetMsg` hands them out.  The result pairs the final state with the
messages that were never fetched. -/
def ide_task_loop (env : Env) : WorkerState → List IOStdReq → WorkerState × List IOStdReq
  | s, [] => (s, [])
  | s, ioreq :: rest =>
    let s1 := ide_task_request env s ioreq
    if s1.alive then ide_task_loop env s1 rest else (s1, rest)

/-- The task `ide_task`: `mp` is the result of `CreatePort`, `delivered` the
messages put to the port in order of arrival. -/
def ide_task (env : Env) (dev : DeviceBase) (mp : Option Nat) (delivered : List IOStdReq) :
    WorkerState × List IOStdReq :=
  match mp with
  | none => (⟨{ dev with Task := none }, [], [], false⟩, delivered)
  | some p => ide_task_loop env ⟨{ dev with TaskMP := some p, TaskActive := true }, [], [], true⟩ delivered

/-! ## `td_get_geometry` and `begin_io` (driver.c) -/

/-- The function `td_get_geometry`; `unit` is the record behind `ioreq->io_Unit`. -/
def td_get_geometry (unit : IDEUnit) (ioreq : IOStdReq) : IOStdReq :=
  if unit.atapi = true ∧ unit.mediumPresent = false then
    { ioreq with io_Error := TDERR_DiskChanged }
  else
    let geometry : DriveGeometry :=
      { ioreq.io_Data.geometry with
        dg_SectorSize := unit.blockSize
        dg_TotalSectors := unit.logicalSectors
        dg_Cylinders := unit.cylinders
        dg_CylSectors := toULONG ((unit.sectorsPerTrack : Int) * (unit.heads : Int))
        dg_Heads := unit.heads
        dg_TrackSectors := unit.sectorsPerTrack
        dg_BufMemType := MEMF_PUBLIC
        dg_DeviceType := unit.device_type
        dg_Flags := if unit.atapi then DGF_REMOVABLE else 0 }
    { ioreq with
      io_Data := { ioreq.io_Data with geometry := geometry }
      io_Error := 0
      io_Actual := sizeof_DriveGeometry }

/-- The table `supported_commands`, without its terminating 0. -/
def supported_commands : List Nat :=
  [CMD_CLEAR, CMD_UPDATE, CMD_READ, CMD_WRITE, TD_ADDCHANGEINT, TD_REMCHANGEINT, TD_PROTSTATUS,
   TD_CHANGENUM, TD_CHANGESTATE, TD_EJECT, TD_GETDRIVETYPE, TD_GETGEOMETRY, TD_MOTOR,
   TD_PROTSTATUS, TD_READ64, TD_WRITE64, TD_FORMAT64, NSCMD_DEVICEQUERY, NSCMD_TD_READ64,
   NSCMD_TD_WRITE64, NSCMD_TD_FORMAT64, HD_SCSICMD]

/-- How `begin_io` leaves a request: `ignored` is the early `return` at the
`io_Unit == 0` test (no reply, no `PutMsg`), `queued` the `PutMsg` to
`dev->IDETaskMP` followed by `return`, `finished` the end of the function, where
`ReplyMsg` is called if and only if `IOF_QUICK` is clear. -/
inductive Disposition
  | ignored
  | queued (port : Option Nat)
  | finished (replied : Bool)
  deriving DecidableEq, Repr

/-- The tail of `begin_io` behind the `switch`. -/
def begin_io_finish (ioreq : IOStdReq) : IOStdReq × Disposition :=
  (ioreq, Disposition.finished (decide (ioreq.io_Flags &&& IOF_QUICK = 0)))

/-- The forwarding cases of `begin_io`. -/
def begin_io_forward (dev : DeviceBase) (ioreq : IOStdReq) : IOStdReq × Disposition :=
  ({ ioreq with io_Flags := ioreq.io_Flags &&& 0xFE }, Disposition.queued dev.IDETaskMP)

/-- The function `begin_io`. -/
def begin_io (dev : DeviceBase) (ioreq : IOStdReq) : IOStdReq × Disposition :=
  let r1 : IOStdReq :=
    { ioreq with
      io_Error := if dev.IDETask = none ∨ dev.IDETaskActive = false then IOERR_OPENFAIL
        else TDERR_NotSpecified }
  match ioreq.io_Unit with
  | none => (r1, Disposition.ignored)
  | some i =>
    let unit := dev.units i
    let c := r1.io_Command
    if c = TD_MOTOR ∨ c = CMD_CLEAR ∨ c = CMD_UPDATE then
      begin_io_finish { r1 with io_Actual := 0, io_Error := 0 }
    else if c = TD_CHANGENUM then
      begin_io_finish { r1 with io_Actual := unit.change_count, io_Error := 0 }
    else if c = TD_GETDRIVETYPE then
      begin_io_finish { r1 with io_Actual := unit.device_type, io_Error := 0 }
    else if c = TD_GETGEOMETRY then
      begin_io_finish (td_get_geometry unit r1)
    else if c = TD_CHANGESTATE ∨ c = CMD_READ ∨ c = CMD_WRITE then
      begin_io_forward dev { r1 with io_Actual := 0 }
    else if c = TD_PROTSTATUS ∨ c = TD_ADDCHANGEINT ∨ c = TD_REMCHANGEINT ∨ c = TD_EJECT ∨
        c = TD_FORMAT ∨ c = TD_READ64 ∨ c = TD_WRITE64 ∨ c = TD_FORMAT64 ∨ c = NSCMD_TD_READ64 ∨
        c = NSCMD_TD_WRITE64 ∨ c = NSCMD_TD_FORMAT64 ∨ c = HD_SCSICMD then
      begin_io_forward dev r1
    else if c = NSCMD_DEVICEQUERY then
      if r1.io_Length ≥ sizeof_NSDeviceQueryResult then
        let result : NSDeviceQueryResult :=
          { DevQueryFormat := 0
            SizeAvailable := sizeof_NSDeviceQueryResult
            DeviceType := NSDEVTYPE_TRACKDISK
            DeviceSubType := 0
            SupportedCommands := supported_commands }
        begin_io_finish
          { r1 with
            io_Data := { r1.io_Data with query := result }
            io_Actual := sizeof_NSDeviceQueryResult
            io_Error := 0 }
      else begin_io_finish { r1 with io_Error := IOERR_BADLENGTH }
    else begin_io_finish { r1 with io_Error := IOERR_NOCMD }

/-- The opcodes `begin_io` answers itself. -/
def immediate_set : List Nat :=
  [TD_MOTOR, CMD_CLEAR, CMD_UPDATE, TD_CHANGENUM, TD_GETDRIVETYPE, TD_GETGEOMETRY, NSCMD_DEVICEQUERY]

/-- The opcodes `begin_io` sends to `ide_task`. -/
def forwarded_set : List Nat :=
  [TD_CHANGESTATE, CMD_READ, CMD_WRITE, TD_PROTSTATUS, TD_ADDCHANGEINT, TD_REMCHANGEINT, TD_EJECT,
   TD_FORMAT, TD_READ64, TD_WRITE64, TD_FORMAT64, NSCMD_TD_READ64, NSCMD_TD_WRITE64,
   NSCMD_TD_FORMAT64, HD_SCSICMD]

/-! ## `open` (driver.c) -/

/-- The device function `open` of `driver.c` (`open` is a reserved word here).
`changestate` stands for `direct_changestate`, which is declared in `idetask.h`
and defined outside the sources: it may rewrite the unit it is given.  The
result is the device base and the request as `open` leaves them.  `lun` is a
`UBYTE`, `lib_OpenCnt` a `UWORD`. -/
def device_open (changestate : IDEUnit → IDEUnit) (dev : DeviceBase) (ioreq : IOStdReq)
    (unitnum : Nat) (_flags : Nat) : DeviceBase × IOStdReq :=
  let lun := (unitnum / 10) % 256
  let unitnum1 := unitnum % 10
  if lun ≠ 0 then (dev, { ioreq with io_Error := TDERR_BadUnitNum })
  else if h : unitnum1 ≥ MAX_UNITS then (dev, { ioreq with io_Error := IOERR_OPENFAIL })
  else
    let i : Fin MAX_UNITS := ⟨unitnum1, Nat.lt_of_not_le h⟩
    let unit := dev.units i
    if unit.present = false then (dev, { ioreq with io_Error := TDERR_BadUnitNum })
    else if dev.IDETask = none ∨ dev.IDETaskActive = false then
      (dev, { ioreq with io_Error := IOERR_OPENFAIL })
    else
      let unit1 := if unit.atapi = true ∧ unit.unitOpened = false then changestate unit else unit
      let unit2 : IDEUnit := { unit1 with unitOpened := true }
      ({ dev with
          units := fun j => if j = i then unit2 else dev.units j
          is_open := true
          lib_OpenCnt := (dev.lib_OpenCnt + 1) % 65536 },
        { ioreq with io_Unit := some i, io_Error := 0 })

/-! ## The Change-Detection Task

`diskchange_task` is declared in `idetask.h` and started by `init_device`; its
body is not among the sources. -/

/-- Modelled from the spec: the state of one unit that the Change-Detection Task
works on, which is the unit record together with its list `changeints` of
registered change-notification listeners in registration order (`init_device`
creates the list empty). -/
structure PolledUnit where
  unit : IDEUnit
  changeints : List Nat

/-- Modelled from the spec: what the Change-State Probe finds at a poll, which is
the physical media presence and the geometry derived for the medium. -/
structure MediaProbe where
  present : Bool
  blockSize : Nat
  blockShift : Nat
  logicalSectors : Nat
  cylinders : Nat
  heads : Nat
  sectorsPerTrack : Nat

/-- Modelled from the spec: one poll of a unit by the Change-Detection Task
`diskchange_task`, whose body is missing (spec section 4.4).  For a removable
unit, if the presence found differs from the stored `mediumPresent` flag, the
task increments `change_count`, stores the new flag, updates the geometry if the
medium is now present, and invokes every registered listener in registration
order.  The result pairs the new state with the listeners invoked. -/
def diskchange_poll (u : PolledUnit) (probe : MediaProbe) : PolledUnit × List Nat :=
  if u.unit.present = true ∧ u.unit.atapi = true ∧ probe.present ≠ u.unit.mediumPresent then
    let unit1 : IDEUnit :=
      { u.unit with change_count := u.unit.change_count + 1, mediumPresent := probe.present }
    let unit2 : IDEUnit :=
      if probe.present = true then
        { unit1 with
          blockSize := probe.blockSize
          blockShift := probe.blockShift
          logicalSectors := probe.logicalSectors
          cylinders := probe.cylinders
          heads := probe.heads
          sectorsPerTrack := probe.sectorsPerTrack }
      else unit1
    ({ u with unit := unit2 }, u.changeints)
  else (u, [])

/-- Modelled from the spec: the Change-Detection Task `diskchange_task` on one
unit over a series of polls (one every `CHANGEINT_INTERVAL` seconds), given what
the probe finds at each.  The result pairs the final state with all listener
invocations, oldest first. -/
def diskchange_task : PolledUnit → List MediaProbe → PolledUnit × List Nat
  | u, [] => (u, [])
  | u, probe :: rest =>
    let r := diskchange_poll u probe
    let t := diskchange_task r.1 rest
    (t.1, r.2 ++ t.2)

/-! ## Sample data for closed statements -/

/-- A buffer of zero bytes. -/
def zeroBuffer : Buffer := fun _ => 0

/-- A buffer with the given leading bytes, zero behind them. -/
def bufferOf (bytes : List Nat) : Buffer := fun i => bytes.getD i 0

/-- A direct-access unit of 1000000 sectors of 512 bytes. -/
def sampleUnit : IDEUnit :=
  { present := true, atapi := false, mediumPresent := true, unitOpened := true,
    device_type := 0, change_count := 1, cylinders := 992, heads := 16, sectorsPerTrack := 63,
    blockSize := 512, blockShift := 9, logicalSectors := 1000000 }

/-- An environment whose transfer primitive succeeds and moves `count` blocks of 512 bytes. -/
def sampleEnv : Env :=
  { ata_transfer := fun _ c => ⟨0, c.count * 512, c.data⟩
    AllocMem := true
    ata_identify := fun _ => some zeroBuffer
    nullUnit := sampleUnit }

/-- A SCSI command block with the given CDB and a non-`NULL` data buffer. -/
def sampleCmd (cdb : List Nat) : SCSICmd :=
  { scsi_Data := some zeroBuffer, scsi_Length := 512, scsi_Actual := 0,
    scsi_Command := bufferOf cdb, scsi_CmdLength := cdb.length, scsi_CmdActual := 0,
    scsi_Status := 0, scsi_SenseActual := 0 }

/-- A geometry record of zeros. -/
def zeroGeometry : DriveGeometry := ⟨0, 0, 0, 0, 0, 0, 0, 0, 0, 0⟩

/-- A request for unit 0 with the given opcode, offset words, length and CDB. -/
def sampleReq (id command actual offset length : Nat) (cdb : List Nat) : IOStdReq :=
  { io_Message := id, io_Unit := some ⟨0, by decide⟩, io_Command := command, io_Flags := 0,
    io_Error := 0, io_Actual := actual, io_Length := length,
    io_Data := ⟨zeroBuffer, zeroGeometry, sampleCmd cdb, ⟨0, 0, 0, 0, []⟩⟩, io_Offset := offset }

/-- A device base with four copies of `sampleUnit` and a running worker. -/
def sampleDev : DeviceBase :=
  { units := fun _ => sampleUnit, IDETask := some 1, IDETaskMP := some 2, IDETaskActive := true,
    Task := some 1, TaskMP := some 2, TaskActive := true, is_open := true, lib_OpenCnt := 1 }

/-- A device base whose worker task never started. -/
def stoppedDev : DeviceBase :=
  { sampleDev with IDETask := none, IDETaskMP := none, IDETaskActive := false }

/-- An ATAPI unit without a medium. -/
def emptyDrive : IDEUnit :=
  { sampleUnit with atapi := true, mediumPresent := false, device_type := 5 }

/-- A request with the given opcode and a NULL `io_Unit`. -/
def unitlessReq (command : Nat) : IOStdReq :=
  { sampleReq 7 command 0 0 0 [] with io_Unit := none }

/-- A queue of three requests: a SCSI READ(10) beyond the end of the unit, an
unknown opcode, and a CMD_READ of the first block. -/
def mixedQueue : List IOStdReq :=
  [sampleReq 1 HD_SCSICMD 0 0 0 [0x28, 0, 0x00, 0x0F, 0x42, 0x40, 0, 0, 1, 0],
   sampleReq 2 0x7777 0 0 0 [],
   sampleReq 3 CMD_READ 0 0 512 []]

/-- A unit whose head count does not fit one byte. -/
def tallUnit : IDEUnit := { sampleUnit with heads := 256 }

/-- A MODE SENSE(6) request with the given page-code byte and subpage 0. -/
def modeSenseReq (page : Nat) : IOStdReq := sampleReq 1 HD_SCSICMD 0 0 0 [0x1A, 0, page, 0]

/-- A unit that is not present. -/
def absentUnitA : IDEUnit := { sampleUnit with present := false }

/-- A unit that is not present and differs from `absentUnitA` in its sector count only. -/
def absentUnitB : IDEUnit := { absentUnitA with logicalSectors := 2000000 }

/-- A device base with a running worker whose units are present and not yet opened. -/
def freshDev : DeviceBase :=
  { sampleDev with
    units := fun _ => { sampleUnit with unitOpened := false }
    is_open := false
    lib_OpenCnt := 0 }

/-- A removable unit without a medium, with three registered listeners. -/
def polledDrive : PolledUnit := ⟨{ emptyDrive with change_count := 7 }, [11, 12, 13]⟩

/-- A probe result: a medium of 333000 blocks of 2048 bytes is present. -/
def discProbe : MediaProbe :=
  { present := true, blockSize := 2048, blockShift := 11, logicalSectors := 333000,
    cylinders := 0, heads := 0, sectorsPerTrack := 0 }

theorem toUBYTE_lt (x : Int) : toUBYTE x < 256 := by
  unfold toUBYTE
  omega

theorem toBYTE_eq_zero_iff (n : Nat) (h : n < 256) : toBYTE n = 0 ↔ n = 0 := by
  unfold toBYTE
  split <;> omega

theorem toULONG_lt (x : Int) : toULONG x < 4294967296 := by
  unfold toULONG
  omega

theorem ldl_stl (b : Buffer) (i v : Nat) : ldl (stl b i v) i = v % 4294967296 := by
  simp [ldl, stl, ldb, stb]
  omega

theorem ldb_stl_of_lt (b : Buffer) (i j v : Nat) (h : j < i) : ldb (stl b i v) j = ldb b j := by
  have h0 : j ≠ i := by omega
  have h1 : j ≠ i + 1 := by omega
  have h2 : j ≠ i + 2 := by omega
  have h3 : j ≠ i + 3 := by omega
  simp [stl, stb, ldb, h0, h1, h2, h3]

theorem ldl_stl_of_add_four (b : Buffer) (i v : Nat) : ldl (stl b (i + 4) v) i = ldl b i := by
  unfold ldl
  rw [ldb_stl_of_lt b (i + 4) i v (by omega), ldb_stl_of_lt b (i + 4) (i + 1) v (by omega),
    ldb_stl_of_lt b (i + 4) (i + 2) v (by omega), ldb_stl_of_lt b (i + 4) (i + 3) v (by omega)]

theorem scsi_inquiry_error_lt (env : Env) (unit : IDEUnit) (sc : SCSICmd) :
    (scsi_inquiry env unit sc).error < 256 := by
  unfold scsi_inquiry
  dsimp only
  split
  · dsimp only
    exact toUBYTE_lt _
  · split
    · dsimp only
      exact toUBYTE_lt _
    · dsimp only
      decide

theorem scsi_mode_sense_6_error_lt (unit : IDEUnit) (sc : SCSICmd) :
    (scsi_mode_sense_6 unit sc).error < 256 := by
  unfold scsi_mode_sense_6
  split
  · dsimp only
    exact toUBYTE_lt _
  · dsimp only
    split
    · dsimp only
      exact toUBYTE_lt _
    · dsimp only
      decide

theorem scsi_read_capacity_10_error_lt (unit : IDEUnit) (sc : SCSICmd) :
    (scsi_read_capacity_10 unit sc).error < 256 := by
  unfold scsi_read_capacity_10
  split
  · dsimp only
    exact toUBYTE_lt _
  · dsimp only
    decide

theorem do_scsi_transfer_error_lt (env : Env) (hist : List XferCall) (unit : IDEUnit)
    (sc : SCSICmd) (lba count : Nat) (direction : xfer_dir) :
    (do_scsi_transfer env hist unit sc lba count direction).error < 256 := by
  unfold do_scsi_transfer
  split
  · dsimp only
    exact toUBYTE_lt _
  · dsimp only
    split
    · dsimp only
      exact toUBYTE_lt _
    · dsimp only
      exact toUBYTE_lt _

theorem scsi_switch_error_lt (env : Env) (hist : List XferCall) (unit : IDEUnit) (sc : SCSICmd) :
    (scsi_switch env hist unit sc).error < 256 := by
  unfold scsi_switch
  dsimp only
  split_ifs
  · dsimp only
    decide
  · exact scsi_inquiry_error_lt _ _ _
  · exact scsi_mode_sense_6_error_lt _ _
  · exact scsi_read_capacity_10_error_lt _ _
  · exact do_scsi_transfer_error_lt _ _ _ _ _ _ _
  · exact do_scsi_transfer_error_lt _ _ _ _ _ _ _
  · exact do_scsi_transfer_error_lt _ _ _ _ _ _ _
  · exact do_scsi_transfer_error_lt _ _ _ _ _ _ _
  · dsimp only
    exact toUBYTE_lt _

/-! ## READ CAPACITY(10) -/

/-- C4. For every well-typed unit and every READ CAPACITY(10) command with a
non-NULL data buffer, `handle_scsi_command` stores `logicalSectors - 1` (as the
32-bit unsigned value the `ULONG` field holds, exactly `logicalSectors - 1` when
the unit has at least one sector, and 0 for a one-sector unit) in `lba`, stores
`blockSize` in `block_size`, reports 8 bytes in `scsi_Actual`, error 0 and status
0, and does not invoke the transfer primitive. -/
theorem read_capacity_reports_last_lba (env : Env) (hist : List XferCall) (unit : IDEUnit)
    (ioreq : IOStdReq) (data : Buffer) (hwf : unit.wf)
    (hop : ldb ioreq.io_Data.scsi.scsi_Command 0 = SCSI_CMD_READ_CAPACITY_10)
    (hdata : ioreq.io_Data.scsi.scsi_Data = some data) :
    ∃ resp : Buffer,
      (handle_scsi_command env hist unit ioreq).ioreq.io_Data.scsi.scsi_Data = some resp ∧
      ((ldl resp 0 : Int) = ((unit.logicalSectors : Int) - 1) % 4294967296) ∧
      (1 ≤ unit.logicalSectors → ldl resp 0 = unit.logicalSectors - 1) ∧
      (unit.logicalSectors = 1 → ldl resp 0 = 0) ∧
      ldl resp 4 = unit.blockSize ∧
      (handle_scsi_command env hist unit ioreq).ioreq.io_Data.scsi.scsi_Actual = 8 ∧
      (handle_scsi_command env hist unit ioreq).ioreq.io_Error = 0 ∧
      (handle_scsi_command env hist unit ioreq).ioreq.io_Data.scsi.scsi_Status = 0 ∧
      (handle_scsi_command env hist unit ioreq).calls = [] := by
  obtain ⟨_, _, _, _, _, hbs, _, hls⟩ := hwf
  have hsw : scsi_switch env hist unit ioreq.io_Data.scsi =
      ⟨0, { ioreq.io_Data.scsi with
              scsi_Data := some (stl (stl data 0 (toULONG ((unit.logicalSectors : Int) - 1))) 4
                unit.blockSize)
              scsi_Actual := 8 }, []⟩ := by
    unfold scsi_switch
    simp [hop, SCSI_CMD_READ_CAPACITY_10, SCSI_CMD_TEST_UNIT_READY, SCSI_CMD_INQUIRY,
      SCSI_CMD_MODE_SENSE_6, scsi_read_capacity_10, hdata]
  have hlba : ldl (stl (stl data 0 (toULONG ((unit.logicalSectors : Int) - 1))) 4 unit.blockSize) 0 =
      toULONG ((unit.logicalSectors : Int) - 1) := by
    rw [show (4 : Nat) = 0 + 4 from rfl, ldl_stl_of_add_four, ldl_stl]
    exact Nat.mod_eq_of_lt (toULONG_lt _)
  refine ⟨stl (stl data 0 (toULONG ((unit.logicalSectors : Int) - 1))) 4 unit.blockSize,
    ?_, ?_, ?_, ?_, ?_, ?_, ?_, ?_, ?_⟩
  · simp [handle_scsi_command, hsw]
  · rw [hlba]
    unfold toULONG
    omega
  · intro h1
    rw [hlba]
    unfold toULONG
    omega
  · intro h1
    rw [hlba]
    unfold toULONG
    omega
  · rw [ldl_stl]
    omega
  · simp [handle_scsi_command, hsw]
  · simp [handle_scsi_command, hsw, toBYTE]
  · simp [handle_scsi_command, hsw]
  · simp [handle_scsi_command, hsw]

/-- C4, at a unit of one sector: the response holds lba 0 and block size 512. -/
theorem read_capacity_reports_last_lba_witness :
    ({ sampleUnit with logicalSectors := 1 } : IDEUnit).wf ∧
    ∃ resp : Buffer,
      (handle_scsi_command sampleEnv [] { sampleUnit with logicalSectors := 1 }
        (sampleReq 1 HD_SCSICMD 0 0 0 [0x25])).ioreq.io_Data.scsi.scsi_Data = some resp ∧
      ldl resp 0 = 0 ∧ ldl resp 4 = 512 := by
  have hwf : ({ sampleUnit with logicalSectors := 1 } : IDEUnit).wf := by decide
  refine ⟨hwf, ?_⟩
  obtain ⟨resp, h1, _, _, h4, h5, _⟩ :=
    read_capacity_reports_last_lba sampleEnv [] { sampleUnit with logicalSectors := 1 }
      (sampleReq 1 HD_SCSICMD 0 0 0 [0x25]) zeroBuffer hwf (by decide) rfl
  exact ⟨resp, h1, h4 rfl, h5⟩

/-! ## Status and error of SCSI passthrough -/

/-- C5. For every SCSI passthrough request and every unit, after
`handle_scsi_command` the status `scsi_Status` is CHECK CONDITION (0x02) if and
only if `io_Error` is non-zero, and is 0 otherwise. -/
theorem scsi_status_check_condition_iff_error (env : Env) (hist : List XferCall) (unit : IDEUnit)
    (ioreq : IOStdReq) :
    ((handle_scsi_command env hist unit ioreq).ioreq.io_Data.scsi.scsi_Status = SCSI_CHECK_CONDITION ↔
      (handle_scsi_command env hist unit ioreq).ioreq.io_Error ≠ 0) ∧
    (handle_scsi_command env hist unit ioreq).ioreq.io_Data.scsi.scsi_Status =
      (if (handle_scsi_command env hist unit ioreq).ioreq.io_Error = 0 then 0
        else SCSI_CHECK_CONDITION) := by
  have hlt := scsi_switch_error_lt env hist unit ioreq.io_Data.scsi
  have hz := toBYTE_eq_zero_iff _ hlt
  by_cases he : (scsi_switch env hist unit ioreq.io_Data.scsi).error = 0
  · simp [handle_scsi_command, he, toBYTE, SCSI_CHECK_CONDITION]
  · have hb : toBYTE (scsi_switch env hist unit ioreq.io_Data.scsi).error ≠ 0 := fun h => he (hz.1 h)
    simp [handle_scsi_command, he, hb]

/-! ## Range checks at their boundaries -/

/-- C1, evaluated at READ(10) with LBA 0xFFFFFFFF and length 1 on a unit of
1000000 sectors.  The decoded LBA plus the decoded count exceeds
`logicalSectors - 1`, but the 32-bit sum wraps to 0 and passes the range test:
for every environment the transfer primitive is invoked once, with
lba 4294967295, and with a primitive that succeeds the request ends with error 0. -/
theorem scsi_read10_sum_wraps_past_range_check (env : Env) (hist : List XferCall) :
    cdb10_lba (bufferOf [0x28, 0, 0xFF, 0xFF, 0xFF, 0xFF, 0, 0, 1, 0]) +
        cdb10_length (bufferOf [0x28, 0, 0xFF, 0xFF, 0xFF, 0xFF, 0, 0, 1, 0]) >
      sampleUnit.logicalSectors - 1 ∧
    (handle_scsi_command env hist sampleUnit
        (sampleReq 1 HD_SCSICMD 0 0 0 [0x28, 0, 0xFF, 0xFF, 0xFF, 0xFF, 0, 0, 1, 0])).calls.map
      (fun c => (c.lba, c.count, c.direction)) = [(4294967295, 1, xfer_dir.READ)] ∧
    (handle_scsi_command sampleEnv hist sampleUnit
        (sampleReq 1 HD_SCSICMD 0 0 0 [0x28, 0, 0xFF, 0xFF, 0xFF, 0xFF, 0, 0, 1, 0])).ioreq.io_Error = 0 := by
  refine ⟨by decide, rfl, rfl⟩

/-- C2, evaluated on a unit with blockSize 512 and logicalSectors 1000000.
READ(10) with LBA 999999 and length 1 is refused: for every environment the
request ends with `IOERR_BADADDRESS` and the transfer primitive is not invoked,
because 999999 + 1 is greater than `logicalSectors - 1`.  READ(10) with LBA
999999 and length 2 is refused in the same way. -/
theorem scsi_read10_last_sector_refused (env : Env) (hist : List XferCall) :
    sampleUnit.blockSize = 512 ∧ sampleUnit.logicalSectors = 1000000 ∧
    cdb10_lba (bufferOf [0x28, 0, 0x00, 0x0F, 0x42, 0x3F, 0, 0, 1, 0]) = 999999 ∧
    cdb10_length (bufferOf [0x28, 0, 0x00, 0x0F, 0x42, 0x3F, 0, 0, 1, 0]) = 1 ∧
    (handle_scsi_command env hist sampleUnit
        (sampleReq 1 HD_SCSICMD 0 0 0 [0x28, 0, 0x00, 0x0F, 0x42, 0x3F, 0, 0, 1, 0])).ioreq.io_Error =
      IOERR_BADADDRESS ∧
    (handle_scsi_command env hist sampleUnit
        (sampleReq 1 HD_SCSICMD 0 0 0 [0x28, 0, 0x00, 0x0F, 0x42, 0x3F, 0, 0, 1, 0])).calls = [] ∧
    (handle_scsi_command env hist sampleUnit
        (sampleReq 1 HD_SCSICMD 0 0 0 [0x28, 0, 0x00, 0x0F, 0x42, 0x3F, 0, 0, 2, 0])).ioreq.io_Error =
      IOERR_BADADDRESS ∧
    (handle_scsi_command env hist sampleUnit
        (sampleReq 1 HD_SCSICMD 0 0 0 [0x28, 0, 0x00, 0x0F, 0x42, 0x3F, 0, 0, 2, 0])).calls = [] := by
  refine ⟨rfl, rfl, by decide, by decide, rfl, rfl, rfl, rfl⟩

/-- C3, evaluated at TD_READ64 with byte offset 2^41 (high word 0x200, low word
0) and length 512 on a unit with blockShift 9 and 1000000 sectors.  The block
range starts at block 2^32, far beyond `logicalSectors - 1`, but the block
address is kept in a 32-bit variable and becomes 0: for every environment
`ide_task` invokes the transfer primitive once, with lba 0 and count 1, and with
a primitive that succeeds the request is replied to with error 0. -/
theorem native_read64_offset_wraps_past_range_check (env : Env) :
    (0x200 * 2 ^ 32 + 0) / 2 ^ sampleUnit.blockShift + 512 / 2 ^ sampleUnit.blockShift >
      sampleUnit.logicalSectors - 1 ∧
    (ide_task env sampleDev (some 2) [sampleReq 1 TD_READ64 0x200 0 512 []]).1.calls.map
      (fun c => (c.lba, c.count, c.direction)) = [(0, 1, xfer_dir.READ)] ∧
    (ide_task sampleEnv sampleDev (some 2) [sampleReq 1 TD_READ64 0x200 0 512 []]).1.replies.map
      (fun r => r.io_Error) = [0] := by
  refine ⟨by decide, ?_, ?_⟩
  · simp [ide_task, ide_task_loop, ide_task_request, ide_task_transfer, derefUnit, sampleReq,
      sampleDev, TD_READ64, CMD_READ]
    rfl
  · simp [ide_task, ide_task_loop, ide_task_request, ide_task_transfer, derefUnit, sampleReq,
      sampleDev, TD_READ64, CMD_READ]
    rfl

/-! ## `begin_io` while the worker is not running -/

/-- C6, evaluated with the worker not running (`dev->IDETask` is NULL and
`dev->IDETaskActive` is false).  The guard stores `IOERR_OPENFAIL` and goes on
into the `switch`: a TD_MOTOR request is completed with error 0, and a CMD_READ
request is passed to `PutMsg` with the NULL port `dev->IDETaskMP`. -/
theorem begin_io_guard_falls_through :
    (begin_io stoppedDev (sampleReq 1 TD_MOTOR 0 0 0 [])).1.io_Error = 0 ∧
    (begin_io stoppedDev (sampleReq 1 TD_MOTOR 0 0 0 [])).2 = Disposition.finished true ∧
    (begin_io stoppedDev (sampleReq 2 CMD_READ 0 0 512 [])).1.io_Error = IOERR_OPENFAIL ∧
    (begin_io stoppedDev (sampleReq 2 CMD_READ 0 0 512 [])).2 = Disposition.queued none := by
  refine ⟨rfl, rfl, rfl, rfl⟩

/-! ## TD_GETGEOMETRY -/

theorem toULONG_mul_of_lt (a b : Nat) (ha : a < 2 ^ 16) (hb : b < 2 ^ 16) :
    toULONG ((a : Int) * (b : Int)) = a * b := by
  have hp : a * b < 4294967296 := by
    have h1 : a * b ≤ 65535 * 65535 := Nat.mul_le_mul (by omega) (by omega)
    omega
  have hc : (a : Int) * (b : Int) = ((a * b : Nat) : Int) := by push_cast; rfl
  unfold toULONG
  rw [hc]
  omega

theorem td_get_geometry_no_medium (unit : IDEUnit) (ioreq : IOStdReq)
    (h : unit.atapi = true ∧ unit.mediumPresent = false) :
    td_get_geometry unit ioreq = { ioreq with io_Error := TDERR_DiskChanged } := by
  unfold td_get_geometry
  rw [if_pos h]

theorem begin_io_get_geometry (dev : DeviceBase) (ioreq : IOStdReq) (i : Fin MAX_UNITS)
    (hu : ioreq.io_Unit = some i) (hc : ioreq.io_Command = TD_GETGEOMETRY) :
    ∃ e : Int, begin_io dev ioreq =
      begin_io_finish (td_get_geometry (dev.units i) { ioreq with io_Error := e }) := by
  refine ⟨if dev.IDETask = none ∨ dev.IDETaskActive = false then IOERR_OPENFAIL
    else TDERR_NotSpecified, ?_⟩
  unfold begin_io
  simp [hu, hc, TD_GETGEOMETRY, TD_MOTOR, CMD_CLEAR, CMD_UPDATE, TD_CHANGENUM, TD_GETDRIVETYPE]

/-- C7. For every TD_GETGEOMETRY request passed to `begin_io` for a well-typed
unit: if the unit is ATAPI with no medium present the request ends with
`TDERR_DiskChanged` and the caller's `DriveGeometry` is left as it was; for every
other unit the request ends with error 0 and the structure holds the unit's
block size, logical sector count, cylinders, heads, sectors per track,
`sectorsPerTrack * heads` as sectors per cylinder, and device type.  In both
cases the request is completed by `begin_io` itself. -/
theorem get_geometry_media_check_and_fields (dev : DeviceBase) (ioreq : IOStdReq)
    (i : Fin MAX_UNITS) (hwf : (dev.units i).wf) (hu : ioreq.io_Unit = some i)
    (hc : ioreq.io_Command = TD_GETGEOMETRY) :
    ((dev.units i).atapi = true ∧ (dev.units i).mediumPresent = false →
      (begin_io dev ioreq).1.io_Error = TDERR_DiskChanged ∧
      (begin_io dev ioreq).1.io_Data.geometry = ioreq.io_Data.geometry) ∧
    (¬ ((dev.units i).atapi = true ∧ (dev.units i).mediumPresent = false) →
      (begin_io dev ioreq).1.io_Error = 0 ∧
      (begin_io dev ioreq).1.io_Data.geometry.dg_SectorSize = (dev.units i).blockSize ∧
      (begin_io dev ioreq).1.io_Data.geometry.dg_TotalSectors = (dev.units i).logicalSectors ∧
      (begin_io dev ioreq).1.io_Data.geometry.dg_Cylinders = (dev.units i).cylinders ∧
      (begin_io dev ioreq).1.io_Data.geometry.dg_Heads = (dev.units i).heads ∧
      (begin_io dev ioreq).1.io_Data.geometry.dg_TrackSectors = (dev.units i).sectorsPerTrack ∧
      (begin_io dev ioreq).1.io_Data.geometry.dg_CylSectors =
        (dev.units i).sectorsPerTrack * (dev.units i).heads ∧
      (begin_io dev ioreq).1.io_Data.geometry.dg_DeviceType = (dev.units i).device_type) ∧
    (begin_io dev ioreq).2 = Disposition.finished (decide (ioreq.io_Flags &&& IOF_QUICK = 0)) := by
  obtain ⟨e, he⟩ := begin_io_get_geometry dev ioreq i hu hc
  obtain ⟨_, _, _, hh, hs, _, _, _⟩ := hwf
  rw [he]
  refine ⟨?_, ?_, ?_⟩
  · intro h
    rw [td_get_geometry_no_medium _ _ h]
    exact ⟨rfl, rfl⟩
  · intro h
    unfold td_get_geometry
    rw [if_neg h]
    refine ⟨rfl, rfl, rfl, rfl, rfl, rfl, ?_, rfl⟩
    exact toULONG_mul_of_lt _ _ hs hh
  · unfold td_get_geometry begin_io_finish
    split <;> rfl

/-- C7, at a device whose unit 0 is an ATAPI drive without a medium and whose
other units are hard disks: the request for unit 0 ends with `TDERR_DiskChanged`
and an untouched geometry record. -/
theorem get_geometry_media_check_and_fields_witness :
    (emptyDrive.wf ∧ TD_GETGEOMETRY = TD_GETGEOMETRY) ∧
    (begin_io { sampleDev with units := fun j => if j.val = 0 then emptyDrive else sampleUnit }
      (sampleReq 1 TD_GETGEOMETRY 0 0 0 [])).1.io_Error = TDERR_DiskChanged ∧
    (begin_io { sampleDev with units := fun j => if j.val = 0 then emptyDrive else sampleUnit }
      (sampleReq 1 TD_GETGEOMETRY 0 0 0 [])).1.io_Data.geometry = zeroGeometry :=
  ⟨⟨by decide, rfl⟩,
    (get_geometry_media_check_and_fields
      { sampleDev with units := fun j => if j.val = 0 then emptyDrive else sampleUnit }
      (sampleReq 1 TD_GETGEOMETRY 0 0 0 []) ⟨0, by decide⟩ (by decide) rfl rfl).1 ⟨rfl, rfl⟩⟩

/-! ## Classification of opcodes by `begin_io` -/

/-- C8 as stated fails for a request whose `io_Unit` is NULL: `begin_io` returns
at its `io_Unit == 0` test.  With the opcode CMD_DIE (in neither set) the error
is `TDERR_NotSpecified`, not `IOERR_NOCMD`, and the request is not completed;
with the opcode CMD_READ (in the forwarded set) the request is not enqueued. -/
theorem begin_io_null_unit_returns_early :
    CMD_DIE ∉ immediate_set ∧ CMD_DIE ∉ forwarded_set ∧
    (begin_io sampleDev (unitlessReq CMD_DIE)).1.io_Error = TDERR_NotSpecified ∧
    (begin_io sampleDev (unitlessReq CMD_DIE)).1.io_Error ≠ IOERR_NOCMD ∧
    (begin_io sampleDev (unitlessReq CMD_DIE)).2 = Disposition.ignored ∧
    CMD_READ ∈ forwarded_set ∧
    (begin_io sampleDev (unitlessReq CMD_READ)).2 = Disposition.ignored := by
  refine ⟨by decide, by decide, rfl, by decide, rfl, by decide, rfl⟩

theorem begin_io_forwarded (dev : DeviceBase) (ioreq : IOStdReq) (i : Fin MAX_UNITS)
    (hu : ioreq.io_Unit = some i) (h : ioreq.io_Command ∈ forwarded_set) :
    (begin_io dev ioreq).2 = Disposition.queued dev.IDETaskMP := by
  simp only [forwarded_set, List.mem_cons, List.mem_singleton, List.mem_nil_iff, or_false] at h
  unfold begin_io
  simp only [hu]
  rcases h with h | h | h | h | h | h | h | h | h | h | h | h | h | h | h <;>
    simp [h, begin_io_forward, TD_MOTOR, CMD_CLEAR, CMD_UPDATE,
      TD_CHANGENUM, TD_GETDRIVETYPE, TD_GETGEOMETRY, TD_CHANGESTATE, CMD_READ, CMD_WRITE,
      TD_PROTSTATUS, TD_ADDCHANGEINT, TD_REMCHANGEINT, TD_EJECT, TD_FORMAT, TD_READ64,
      TD_WRITE64, TD_FORMAT64, NSCMD_TD_READ64, NSCMD_TD_WRITE64, NSCMD_TD_FORMAT64, HD_SCSICMD,
      NSCMD_DEVICEQUERY]

theorem td_get_geometry_flags (unit : IDEUnit) (ioreq : IOStdReq) :
    (td_get_geometry unit ioreq).io_Flags = ioreq.io_Flags := by
  unfold td_get_geometry
  split <;> rfl

theorem begin_io_not_forwarded (dev : DeviceBase) (ioreq : IOStdReq) (i : Fin MAX_UNITS)
    (hu : ioreq.io_Unit = some i) (h : ioreq.io_Command ∉ forwarded_set) :
    (begin_io dev ioreq).2 = Disposition.finished (decide (ioreq.io_Flags &&& IOF_QUICK = 0)) := by
  simp only [forwarded_set, List.mem_cons, List.mem_singleton, List.mem_nil_iff, or_false,
    not_or] at h
  obtain ⟨h1, h2, h3, h4, h5, h6, h7, h8, h9, h10, h11, h12, h13, h14, h15⟩ := h
  have ha : ¬ (ioreq.io_Command = TD_CHANGESTATE ∨ ioreq.io_Command = CMD_READ ∨
      ioreq.io_Command = CMD_WRITE) := by
    rintro (h | h | h) <;> contradiction
  have hb : ¬ (ioreq.io_Command = TD_PROTSTATUS ∨ ioreq.io_Command = TD_ADDCHANGEINT ∨
      ioreq.io_Command = TD_REMCHANGEINT ∨ ioreq.io_Command = TD_EJECT ∨
      ioreq.io_Command = TD_FORMAT ∨ ioreq.io_Command = TD_READ64 ∨
      ioreq.io_Command = TD_WRITE64 ∨ ioreq.io_Command = TD_FORMAT64 ∨
      ioreq.io_Command = NSCMD_TD_READ64 ∨ ioreq.io_Command = NSCMD_TD_WRITE64 ∨
      ioreq.io_Command = NSCMD_TD_FORMAT64 ∨ ioreq.io_Command = HD_SCSICMD) := by
    rintro (h | h | h | h | h | h | h | h | h | h | h | h) <;> contradiction
  unfold begin_io
  simp only [hu, if_neg ha, if_neg hb, begin_io_finish]
  split_ifs <;> first | rfl | (rw [td_get_geometry_flags])

theorem begin_io_unknown (dev : DeviceBase) (ioreq : IOStdReq) (i : Fin MAX_UNITS)
    (hu : ioreq.io_Unit = some i) (h1 : ioreq.io_Command ∉ immediate_set)
    (h2 : ioreq.io_Command ∉ forwarded_set) :
    (begin_io dev ioreq).1.io_Error = IOERR_NOCMD := by
  simp only [forwarded_set, List.mem_cons, List.mem_singleton, List.mem_nil_iff, or_false,
    not_or] at h2
  simp only [immediate_set, List.mem_cons, List.mem_singleton, List.mem_nil_iff, or_false,
    not_or] at h1
  obtain ⟨g1, g2, g3, g4, g5, g6, g7⟩ := h1
  obtain ⟨f1, f2, f3, f4, f5, f6, f7, f8, f9, f10, f11, f12, f13, f14, f15⟩ := h2
  have ha : ¬ (ioreq.io_Command = TD_CHANGESTATE ∨ ioreq.io_Command = CMD_READ ∨
      ioreq.io_Command = CMD_WRITE) := by
    rintro (h | h | h) <;> contradiction
  have hb : ¬ (ioreq.io_Command = TD_PROTSTATUS ∨ ioreq.io_Command = TD_ADDCHANGEINT ∨
      ioreq.io_Command = TD_REMCHANGEINT ∨ ioreq.io_Command = TD_EJECT ∨
      ioreq.io_Command = TD_FORMAT ∨ ioreq.io_Command = TD_READ64 ∨
      ioreq.io_Command = TD_WRITE64 ∨ ioreq.io_Command = TD_FORMAT64 ∨
      ioreq.io_Command = NSCMD_TD_READ64 ∨ ioreq.io_Command = NSCMD_TD_WRITE64 ∨
      ioreq.io_Command = NSCMD_TD_FORMAT64 ∨ ioreq.io_Command = HD_SCSICMD) := by
    rintro (h | h | h | h | h | h | h | h | h | h | h | h) <;> contradiction
  have hc : ¬ (ioreq.io_Command = TD_MOTOR ∨ ioreq.io_Command = CMD_CLEAR ∨
      ioreq.io_Command = CMD_UPDATE) := by
    rintro (h | h | h) <;> contradiction
  unfold begin_io
  simp only [hu, if_neg ha, if_neg hb, if_neg hc, if_neg g4, if_neg g5, if_neg g6, if_neg g7,
    begin_io_finish]

/-- C8, amended. For every request whose `io_Unit` is not NULL: if the opcode is
neither in the immediate set nor in the forwarded set of `begin_io` (CMD_DIE is
in neither), `begin_io` completes the request with `IOERR_NOCMD` and does not
enqueue it; and the request is enqueued to the worker if and only if its opcode
is in the forwarded set. -/
theorem begin_io_unknown_opcode_and_forwarding (dev : DeviceBase) (ioreq : IOStdReq)
    (i : Fin MAX_UNITS) (hu : ioreq.io_Unit = some i) :
    (ioreq.io_Command ∉ immediate_set → ioreq.io_Command ∉ forwarded_set →
      (begin_io dev ioreq).1.io_Error = IOERR_NOCMD ∧
      (begin_io dev ioreq).2 = Disposition.finished (decide (ioreq.io_Flags &&& IOF_QUICK = 0))) ∧
    ((∃ p, (begin_io dev ioreq).2 = Disposition.queued p) ↔ ioreq.io_Command ∈ forwarded_set) ∧
    CMD_DIE ∉ immediate_set ∧ CMD_DIE ∉ forwarded_set := by
  refine ⟨?_, ?_, by decide, by decide⟩
  · intro h1 h2
    exact ⟨begin_io_unknown dev ioreq i hu h1 h2, begin_io_not_forwarded dev ioreq i hu h2⟩
  · constructor
    · rintro ⟨p, hp⟩
      by_contra hn
      rw [begin_io_not_forwarded dev ioreq i hu hn] at hp
      exact Disposition.noConfusion hp
    · intro h
      exact ⟨dev.IDETaskMP, begin_io_forwarded dev ioreq i hu h⟩

/-- C8 amended, at the shutdown opcode: a CMD_DIE request with a unit is
answered with `IOERR_NOCMD` by `begin_io` and never reaches the worker. -/
theorem begin_io_unknown_opcode_and_forwarding_witness :
    (sampleReq 1 CMD_DIE 0 0 0 []).io_Unit = some ⟨0, by decide⟩ ∧
    (begin_io sampleDev (sampleReq 1 CMD_DIE 0 0 0 [])).1.io_Error = IOERR_NOCMD ∧
    (begin_io sampleDev (sampleReq 1 CMD_DIE 0 0 0 [])).2 = Disposition.finished true :=
  ⟨rfl,
    (begin_io_unknown_opcode_and_forwarding sampleDev (sampleReq 1 CMD_DIE 0 0 0 [])
      ⟨0, by decide⟩ rfl).1 (by decide) (by decide)⟩

/-! ## The worker loop -/

theorem ide_task_transfer_message (env : Env) (hist : List XferCall) (unit : IDEUnit)
    (ioreq : IOStdReq) (direction : xfer_dir) :
    (ide_task_transfer env hist unit ioreq direction).1.io_Message = ioreq.io_Message := by
  unfold ide_task_transfer
  dsimp only
  split <;> rfl

theorem handle_scsi_command_message (env : Env) (hist : List XferCall) (unit : IDEUnit)
    (ioreq : IOStdReq) :
    (handle_scsi_command env hist unit ioreq).ioreq.io_Message = ioreq.io_Message := rfl

/-- A request other than CMD_DIE gets one reply appended, and the task lives on
with its device base untouched. -/
theorem ide_task_request_of_ne_die (env : Env) (s : WorkerState) (ioreq : IOStdReq)
    (h : ioreq.io_Command ≠ CMD_DIE) :
    (∃ r : IOStdReq, (ide_task_request env s ioreq).replies = s.replies ++ [r] ∧
      r.io_Message = ioreq.io_Message) ∧
    (ide_task_request env s ioreq).alive = s.alive ∧
    (ide_task_request env s ioreq).dev = s.dev := by
  unfold ide_task_request
  dsimp only
  split_ifs with h1 h2 h3
  · exact ⟨⟨_, rfl, ide_task_transfer_message _ _ _ _ _⟩, rfl, rfl⟩
  · exact ⟨⟨_, rfl, ide_task_transfer_message _ _ _ _ _⟩, rfl, rfl⟩
  · exact ⟨⟨_, rfl, handle_scsi_command_message _ _ _ _⟩, rfl, rfl⟩
  · exact ⟨⟨_, rfl, rfl⟩, rfl, rfl⟩

/-- The loop invariant of `ide_task` over a queue without CMD_DIE. -/
theorem ide_task_loop_no_die (env : Env) (queue : List IOStdReq) :
    ∀ s : WorkerState, s.alive = true → (∀ r ∈ queue, r.io_Command ≠ CMD_DIE) →
      (ide_task_loop env s queue).2 = [] ∧
      (ide_task_loop env s queue).1.alive = true ∧
      (ide_task_loop env s queue).1.dev = s.dev ∧
      (ide_task_loop env s queue).1.replies.map (fun r => r.io_Message) =
        s.replies.map (fun r => r.io_Message) ++ queue.map (fun r => r.io_Message) := by
  induction queue with
  | nil =>
    intro s ha _
    simp [ide_task_loop, ha]
  | cons q rest ih =>
    intro s ha hq
    have hq0 : q.io_Command ≠ CMD_DIE := hq q (List.mem_cons_self _ _)
    have hrest : ∀ r ∈ rest, r.io_Command ≠ CMD_DIE := fun r hr => hq r (List.mem_cons_of_mem _ hr)
    obtain ⟨⟨r, hr, hm⟩, hal, hdev⟩ := ide_task_request_of_ne_die env s q hq0
    have ha1 : (ide_task_request env s q).alive = true := by rw [hal, ha]
    obtain ⟨i1, i2, i3, i4⟩ := ih (ide_task_request env s q) ha1 hrest
    simp only [ide_task_loop, ha1, if_true]
    refine ⟨i1, i2, by rw [i3, hdev], ?_⟩
    rw [i4, hr]
    simp [hm]

/-- C9. For every sequence of queued requests that contains no shutdown command,
`ide_task` replies to each request exactly once and in the order of delivery:
the message nodes of the replies are those of the delivered requests, in the
same order, whatever the transfer primitive returns and whatever error each
request ends with; no request is left unfetched and the task keeps running. -/
theorem ide_task_replies_once_in_order (env : Env) (dev : DeviceBase) (mp : Nat)
    (queue : List IOStdReq) (h : ∀ r ∈ queue, r.io_Command ≠ CMD_DIE) :
    (ide_task env dev (some mp) queue).1.replies.map (fun r => r.io_Message) =
      queue.map (fun r => r.io_Message) ∧
    (ide_task env dev (some mp) queue).1.replies.length = queue.length ∧
    (ide_task env dev (some mp) queue).2 = [] ∧
    (ide_task env dev (some mp) queue).1.alive = true := by
  obtain ⟨i1, i2, _, i4⟩ :=
    ide_task_loop_no_die env queue ⟨{ dev with TaskMP := some mp, TaskActive := true }, [], [], true⟩
      rfl h
  have hmap : (ide_task env dev (some mp) queue).1.replies.map (fun r => r.io_Message) =
      queue.map (fun r => r.io_Message) := by
    simpa [ide_task] using i4
  refine ⟨hmap, ?_, i1, i2⟩
  have hlen := congrArg List.length hmap
  simpa using hlen

/-- C9, at `mixedQueue`: the first request fails with an addressing error, the
second with an unknown-opcode error, and all three are replied to in order. -/
theorem ide_task_replies_once_in_order_witness :
    (∀ r ∈ mixedQueue, r.io_Command ≠ CMD_DIE) ∧
    (ide_task sampleEnv sampleDev (some 2) mixedQueue).1.replies.map (fun r => r.io_Message) =
      [1, 2, 3] ∧
    (ide_task sampleEnv sampleDev (some 2) mixedQueue).1.replies.map (fun r => r.io_Error) =
      [IOERR_BADADDRESS, IOERR_NOCMD, 0] :=
  ⟨by decide,
    (ide_task_replies_once_in_order sampleEnv sampleDev 2 mixedQueue (by decide)).1,
    by decide⟩

/-- C10. When the queue holds a shutdown command followed by two other requests,
`ide_task` replies to the shutdown request and to nothing else, clears `TaskMP`
and `Task`, sets `TaskActive` to false and removes itself; the two trailing
requests are never fetched, so neither is replied to, and the transfer primitive
is not invoked. -/
theorem ide_task_shutdown_abandons_trailing (env : Env) (dev : DeviceBase) (mp : Nat)
    (die r1 r2 : IOStdReq) (h : die.io_Command = CMD_DIE) :
    (ide_task env dev (some mp) [die, r1, r2]).1.replies = [die] ∧
    (ide_task env dev (some mp) [die, r1, r2]).1.alive = false ∧
    (ide_task env dev (some mp) [die, r1, r2]).1.dev.TaskActive = false ∧
    (ide_task env dev (some mp) [die, r1, r2]).1.dev.Task = none ∧
    (ide_task env dev (some mp) [die, r1, r2]).1.dev.TaskMP = none ∧
    (ide_task env dev (some mp) [die, r1, r2]).2 = [r1, r2] ∧
    (ide_task env dev (some mp) [die, r1, r2]).1.calls = [] := by
  have hs : ide_task_request env ⟨{ dev with TaskMP := some mp, TaskActive := true }, [], [], true⟩ die =
      ⟨{ dev with TaskMP := none, Task := none, TaskActive := false }, [], [die], false⟩ := by
    unfold ide_task_request
    simp [h, CMD_DIE, CMD_READ, TD_READ64, NSCMD_TD_READ64, CMD_WRITE, TD_WRITE64, TD_FORMAT64,
      NSCMD_TD_WRITE64, NSCMD_TD_FORMAT64, HD_SCSICMD]
  simp [ide_task, ide_task_loop, hs]

/-- C10, at a shutdown request followed by a CMD_READ and a SCSI command. -/
theorem ide_task_shutdown_abandons_trailing_witness :
    (sampleReq 1 CMD_DIE 0 0 0 []).io_Command = CMD_DIE ∧
    (ide_task sampleEnv sampleDev (some 2)
      [sampleReq 1 CMD_DIE 0 0 0 [], sampleReq 2 CMD_READ 0 0 512 [],
        sampleReq 3 HD_SCSICMD 0 0 0 [0x25]]).1.replies.map (fun r => r.io_Message) = [1] ∧
    (ide_task sampleEnv sampleDev (some 2)
      [sampleReq 1 CMD_DIE 0 0 0 [], sampleReq 2 CMD_READ 0 0 512 [],
        sampleReq 3 HD_SCSICMD 0 0 0 [0x25]]).2.map (fun r => r.io_Message) = [2, 3] ∧
    (ide_task sampleEnv sampleDev (some 2)
      [sampleReq 1 CMD_DIE 0 0 0 [], sampleReq 2 CMD_READ 0 0 512 [],
        sampleReq 3 HD_SCSICMD 0 0 0 [0x25]]).1.alive = false := by
  have w := ide_task_shutdown_abandons_trailing sampleEnv sampleDev 2
    (sampleReq 1 CMD_DIE 0 0 0 []) (sampleReq 2 CMD_READ 0 0 512 [])
    (sampleReq 3 HD_SCSICMD 0 0 0 [0x25]) rfl
  refine ⟨rfl, ?_, ?_, w.2.1⟩
  · rw [w.1]
    rfl
  · rw [w.2.2.2.2.2.1]
    rfl

/-! ## MODE SENSE(6) -/

theorem emit_cons (b : Buffer) (i v : Nat) (vs : List Nat) :
    emit (b, i) (v :: vs) = emit (stb b i v, (i + 1) % 256) vs := rfl

/-- The index after a run of `data[idx++] = v` that stays below 256. -/
theorem emit_snd (bytes : List Nat) :
    ∀ (b : Buffer) (i : Nat), i + bytes.length < 256 → (emit (b, i) bytes).2 = i + bytes.length := by
  induction bytes with
  | nil => intro b i _; rfl
  | cons v vs ih =>
    intro b i h
    simp only [List.length_cons] at h
    rw [emit_cons, Nat.mod_eq_of_lt (by omega), ih _ _ (by omega)]
    simp only [List.length_cons]
    omega

/-- Bytes below the start index are not touched by the run. -/
theorem emit_fst_of_lt (bytes : List Nat) :
    ∀ (b : Buffer) (i j : Nat), i + bytes.length < 256 → j < i → (emit (b, i) bytes).1 j = b j := by
  induction bytes with
  | nil => intro b i j _ _; rfl
  | cons v vs ih =>
    intro b i j h hj
    simp only [List.length_cons] at h
    rw [emit_cons, Nat.mod_eq_of_lt (by omega), ih _ _ _ (by omega) (by omega)]
    have hne : j ≠ i := by omega
    simp [stb, hne]

/-- The byte at offset `k` of the run is the `k`-th value, truncated to 8 bits. -/
theorem emit_fst_at (bytes : List Nat) :
    ∀ (b : Buffer) (i k : Nat), i + bytes.length < 256 → k < bytes.length →
      (emit (b, i) bytes).1 (i + k) = bytes.getD k 0 % 256 := by
  induction bytes with
  | nil => intro b i k _ hk; simp at hk
  | cons v vs ih =>
    intro b i k h hk
    simp only [List.length_cons] at h hk
    rw [emit_cons, Nat.mod_eq_of_lt (by omega)]
    cases k with
    | zero =>
      rw [Nat.add_zero, emit_fst_of_lt vs _ _ _ (by omega) (by omega)]
      simp [stb]
    | succ k =>
      have := ih (stb b i v) (i + 1) k (by omega) (by omega)
      rw [show i + (k + 1) = i + 1 + k by omega, this]
      simp

theorem mode_page_03_length (unit : IDEUnit) : (mode_page_03 unit).length = 26 := rfl

theorem mode_page_04_length (unit : IDEUnit) : (mode_page_04 unit).length = 25 := rfl

/-- The MODE SENSE branch is taken for opcode 0x1A. -/
theorem scsi_switch_mode_sense (env : Env) (hist : List XferCall) (unit : IDEUnit) (sc : SCSICmd)
    (hop : ldb sc.scsi_Command 0 = SCSI_CMD_MODE_SENSE_6) :
    scsi_switch env hist unit sc = scsi_mode_sense_6 unit sc := by
  unfold scsi_switch
  simp [hop, SCSI_CMD_MODE_SENSE_6, SCSI_CMD_TEST_UNIT_READY, SCSI_CMD_INQUIRY]

/-- The buffer, error and calls that `handle_scsi_command` leaves for a
MODE SENSE(6) command with subpage 0 and a buffer. -/
theorem mode_sense_data (env : Env) (hist : List XferCall) (unit : IDEUnit) (ioreq : IOStdReq)
    (data : Buffer) (hop : ldb ioreq.io_Data.scsi.scsi_Command 0 = SCSI_CMD_MODE_SENSE_6)
    (hsub : ldb ioreq.io_Data.scsi.scsi_Command 3 = 0)
    (hdata : ioreq.io_Data.scsi.scsi_Data = some data) :
    ∃ s2 : Buffer × Nat,
      s2 = (if ldb ioreq.io_Data.scsi.scsi_Command 2 &&& 0x3F = 0x3F ∨
              ldb ioreq.io_Data.scsi.scsi_Command 2 &&& 0x3F = 0x04 then
            emit (if ldb ioreq.io_Data.scsi.scsi_Command 2 &&& 0x3F = 0x3F ∨
                    ldb ioreq.io_Data.scsi.scsi_Command 2 &&& 0x3F = 0x03 then
                  emit (stb (stb (stb (stb data 1 unit.device_type) 2 0) 3 0) 0 3, 4)
                    (mode_page_03 unit)
                else (stb (stb (stb (stb data 1 unit.device_type) 2 0) 3 0) 0 3, 4))
              (mode_page_04 unit)
          else (if ldb ioreq.io_Data.scsi.scsi_Command 2 &&& 0x3F = 0x3F ∨
                  ldb ioreq.io_Data.scsi.scsi_Command 2 &&& 0x3F = 0x03 then
                emit (stb (stb (stb (stb data 1 unit.device_type) 2 0) 3 0) 0 3, 4)
                  (mode_page_03 unit)
              else (stb (stb (stb (stb data 1 unit.device_type) 2 0) 3 0) 0 3, 4))) ∧
      (handle_scsi_command env hist unit ioreq).ioreq.io_Data.scsi.scsi_Data =
        some (stb s2.1 0 (ldb s2.1 0 + (s2.2 + 1))) ∧
      (handle_scsi_command env hist unit ioreq).ioreq.io_Error = 0 ∧
      (handle_scsi_command env hist unit ioreq).calls = [] := by
  refine ⟨_, rfl, ?_, ?_, ?_⟩
  · simp [handle_scsi_command, scsi_switch_mode_sense env hist unit _ hop, scsi_mode_sense_6,
      hdata, hsub]
  · simp [handle_scsi_command, scsi_switch_mode_sense env hist unit _ hop, scsi_mode_sense_6,
      hdata, hsub, toBYTE]
  · simp [handle_scsi_command, scsi_switch_mode_sense env hist unit _ hop, scsi_mode_sense_6,
      hdata, hsub]

/-- The response for page code 0x04 alone: the header bytes are followed at
offset 4 by the bytes of page 0x04. -/
theorem mode_sense_page_04_bytes (env : Env) (hist : List XferCall) (unit : IDEUnit)
    (ioreq : IOStdReq) (data : Buffer)
    (hop : ldb ioreq.io_Data.scsi.scsi_Command 0 = SCSI_CMD_MODE_SENSE_6)
    (hpage : ldb ioreq.io_Data.scsi.scsi_Command 2 &&& 0x3F = 0x04)
    (hsub : ldb ioreq.io_Data.scsi.scsi_Command 3 = 0)
    (hdata : ioreq.io_Data.scsi.scsi_Data = some data) :
    ∃ resp : Buffer,
      (handle_scsi_command env hist unit ioreq).ioreq.io_Data.scsi.scsi_Data = some resp ∧
      (∀ k, k < 25 → resp (4 + k) = (mode_page_04 unit).getD k 0 % 256) ∧
      ldb resp 0 = 33 := by
  obtain ⟨s2, hs2, hresp, _, _⟩ := mode_sense_data env hist unit ioreq data hop hsub hdata
  simp only [hpage] at hs2
  norm_num at hs2
  refine ⟨_, hresp, ?_, ?_⟩
  · intro k hk
    have hne : 4 + k ≠ 0 := by omega
    simp only [stb, hne, if_false]
    rw [hs2]
    exact emit_fst_at _ _ _ _ (by rw [mode_page_04_length]; omega)
      (by rw [mode_page_04_length]; exact hk)
  · have h0 : s2.1 0 = 3 := by
      rw [hs2, emit_fst_of_lt _ _ _ _ (by rw [mode_page_04_length]; omega) (by omega)]
      simp [stb]
    have h2 : s2.2 = 29 := by
      rw [hs2, emit_snd _ _ _ (by rw [mode_page_04_length]; omega), mode_page_04_length]
    simp [ldb, stb, h0, h2]

/-- C11 as stated fails for a unit whose head count needs more than one byte:
page byte 5 holds only the low 8 bits of `heads`.  For a well-typed unit with
256 heads the decoded head count is 0. -/
theorem mode_sense_heads_truncated :
    tallUnit.wf ∧ tallUnit.heads = 256 ∧
    ((handle_scsi_command sampleEnv [] tallUnit (modeSenseReq 0x04)).ioreq.io_Data.scsi.scsi_Data).map
      (fun resp => ldb resp (4 + 5)) = some 0 := by
  refine ⟨by decide, rfl, by decide⟩

/-- C11, amended. For every unit whose cylinder count fits 16 bits and whose head
count fits 8 bits, the MODE SENSE(6) response for page code 0x04 with subpage 0
carries page 0x04 at response offset 4 (header bytes 0x04, 0x16), and decoding
the cylinder count from page bytes 2..4 (big-endian) and the head count from
page byte 5 yields exactly the unit's stored cylinders and heads. -/
theorem mode_sense_page_04_round_trip (env : Env) (hist : List XferCall) (unit : IDEUnit)
    (ioreq : IOStdReq) (data : Buffer)
    (hop : ldb ioreq.io_Data.scsi.scsi_Command 0 = SCSI_CMD_MODE_SENSE_6)
    (hpage : ldb ioreq.io_Data.scsi.scsi_Command 2 &&& 0x3F = 0x04)
    (hsub : ldb ioreq.io_Data.scsi.scsi_Command 3 = 0)
    (hdata : ioreq.io_Data.scsi.scsi_Data = some data)
    (hc : unit.cylinders < 2 ^ 16) (hh : unit.heads < 2 ^ 8) :
    ∃ resp : Buffer,
      (handle_scsi_command env hist unit ioreq).ioreq.io_Data.scsi.scsi_Data = some resp ∧
      ldb resp 4 = 0x04 ∧ ldb resp 5 = 0x16 ∧
      ldb resp (4 + 2) * 65536 + ldb resp (4 + 3) * 256 + ldb resp (4 + 4) = unit.cylinders ∧
      ldb resp (4 + 5) = unit.heads := by
  obtain ⟨resp, hresp, hbytes, _⟩ :=
    mode_sense_page_04_bytes env hist unit ioreq data hop hpage hsub hdata
  have b0 : resp (4 + 0) = 0x04 % 256 := hbytes 0 (by omega)
  have b1 : resp (4 + 1) = 0x16 % 256 := hbytes 1 (by omega)
  have b2 : resp (4 + 2) = 0 % 256 := hbytes 2 (by omega)
  have b3 : resp (4 + 3) = (unit.cylinders >>> 8) % 256 := hbytes 3 (by omega)
  have b4 : resp (4 + 4) = unit.cylinders % 256 := hbytes 4 (by omega)
  have b5 : resp (4 + 5) = unit.heads % 256 := hbytes 5 (by omega)
  rw [Nat.shiftRight_eq_div_pow] at b3
  norm_num at b0 b1 b2 b3 b4 b5 hc hh
  refine ⟨resp, hresp, ?_, ?_, ?_, ?_⟩
  · simp [ldb, b0]
  · simp [ldb, b1]
  · simp only [ldb, Nat.reduceAdd, b2, b3, b4]
    omega
  · simp only [ldb, Nat.reduceAdd, b5]
    omega

/-- C11 amended, at the sample unit (992 cylinders, 16 heads). -/
theorem mode_sense_page_04_round_trip_witness :
    (sampleUnit.cylinders < 2 ^ 16 ∧ sampleUnit.heads < 2 ^ 8) ∧
    ∃ resp : Buffer,
      (handle_scsi_command sampleEnv [] sampleUnit (modeSenseReq 0x04)).ioreq.io_Data.scsi.scsi_Data =
        some resp ∧
      ldb resp (4 + 2) * 65536 + ldb resp (4 + 3) * 256 + ldb resp (4 + 4) = 992 ∧
      ldb resp (4 + 5) = 16 := by
  refine ⟨by decide, ?_⟩
  obtain ⟨resp, h1, _, _, h4, h5⟩ :=
    mode_sense_page_04_round_trip sampleEnv [] sampleUnit (modeSenseReq 0x04) zeroBuffer
      (by decide) (by decide) (by decide) rfl (by decide) (by decide)
  exact ⟨resp, h1, h4, h5⟩

/-- C12, evaluated at MODE SENSE(6) with subpage 0 and an arbitrary page-code
byte, for every environment and unit.  The first response byte is 5 more than
the number of response bytes that follow it (the 3 remaining header bytes plus
the bytes of the emitted pages): the code starts the count at 3 and adds
`idx + 1`, where `idx` already counts the 4 header bytes.  `scsi_Actual` is that
byte plus 1. -/
theorem mode_sense_length_byte_overcounts (env : Env) (hist : List XferCall) (unit : IDEUnit)
    (page : Nat) :
    ∃ resp : Buffer,
      (handle_scsi_command env hist unit (modeSenseReq page)).ioreq.io_Data.scsi.scsi_Data =
        some resp ∧
      ldb resp 0 =
        (3 + ((if page % 256 &&& 0x3F = 0x3F ∨ page % 256 &&& 0x3F = 0x03 then
                (mode_page_03 unit).length else 0) +
              (if page % 256 &&& 0x3F = 0x3F ∨ page % 256 &&& 0x3F = 0x04 then
                (mode_page_04 unit).length else 0))) + 5 := by
  have hop : ldb (modeSenseReq page).io_Data.scsi.scsi_Command 0 = SCSI_CMD_MODE_SENSE_6 := rfl
  have hsub : ldb (modeSenseReq page).io_Data.scsi.scsi_Command 3 = 0 := rfl
  have hpg : ldb (modeSenseReq page).io_Data.scsi.scsi_Command 2 = page % 256 := rfl
  obtain ⟨s2, hs2, hresp, _, _⟩ :=
    mode_sense_data env hist unit (modeSenseReq page) zeroBuffer hop hsub rfl
  rw [hpg] at hs2
  refine ⟨_, hresp, ?_⟩
  have e3 : ∀ b : Buffer, emit (b, 4) (mode_page_03 unit) =
      ((emit (b, 4) (mode_page_03 unit)).1, 30) := fun b =>
    Prod.ext rfl (by rw [emit_snd _ _ _ (by rw [mode_page_03_length]; omega), mode_page_03_length])
  have key : s2.1 0 = 3 ∧ s2.2 = 4 +
      ((if page % 256 &&& 0x3F = 0x3F ∨ page % 256 &&& 0x3F = 0x03 then
          (mode_page_03 unit).length else 0) +
        (if page % 256 &&& 0x3F = 0x3F ∨ page % 256 &&& 0x3F = 0x04 then
          (mode_page_04 unit).length else 0)) := by
    by_cases h3 : page % 256 &&& 0x3F = 0x3F ∨ page % 256 &&& 0x3F = 0x03
    · by_cases h4 : page % 256 &&& 0x3F = 0x3F ∨ page % 256 &&& 0x3F = 0x04
      · rw [if_pos h3, if_pos h4] at hs2
        rw [if_pos h3, if_pos h4, hs2, e3, mode_page_03_length, mode_page_04_length]
        constructor
        · rw [emit_fst_of_lt _ _ _ _ (by rw [mode_page_04_length]; omega) (by omega),
            emit_fst_of_lt _ _ _ _ (by rw [mode_page_03_length]; omega) (by omega)]
          simp [stb]
        · rw [emit_snd _ _ _ (by rw [mode_page_04_length]; omega), mode_page_04_length]
      · rw [if_pos h3, if_neg h4] at hs2
        rw [if_pos h3, if_neg h4, hs2, e3, mode_page_03_length]
        constructor
        · rw [emit_fst_of_lt _ _ _ _ (by rw [mode_page_03_length]; omega) (by omega)]
          simp [stb]
        · rfl
    · by_cases h4 : page % 256 &&& 0x3F = 0x3F ∨ page % 256 &&& 0x3F = 0x04
      · rw [if_neg h3, if_pos h4] at hs2
        rw [if_neg h3, if_pos h4, hs2, mode_page_04_length]
        constructor
        · rw [emit_fst_of_lt _ _ _ _ (by rw [mode_page_04_length]; omega) (by omega)]
          simp [stb]
        · rw [emit_snd _ _ _ (by rw [mode_page_04_length]; omega), mode_page_04_length]
      · rw [if_neg h3, if_neg h4] at hs2
        rw [if_neg h3, if_neg h4, hs2]
        constructor
        · simp [stb]
        · rfl
  obtain ⟨k0, k2⟩ := key
  have hbound : (if page % 256 &&& 0x3F = 0x3F ∨ page % 256 &&& 0x3F = 0x03 then
          (mode_page_03 unit).length else 0) +
        (if page % 256 &&& 0x3F = 0x3F ∨ page % 256 &&& 0x3F = 0x04 then
          (mode_page_04 unit).length else 0) ≤ 51 := by
    rw [mode_page_03_length, mode_page_04_length]
    split_ifs <;> omega
  simp only [ldb, stb, if_true, k0, k2]
  omega

/-- The response for page code 0x3F: page 0x03 at offsets 4..29, page 0x04 at
offsets 30..54. -/
theorem mode_sense_all_pages_bytes (env : Env) (hist : List XferCall) (unit : IDEUnit)
    (ioreq : IOStdReq) (data : Buffer)
    (hop : ldb ioreq.io_Data.scsi.scsi_Command 0 = SCSI_CMD_MODE_SENSE_6)
    (hpage : ldb ioreq.io_Data.scsi.scsi_Command 2 &&& 0x3F = 0x3F)
    (hsub : ldb ioreq.io_Data.scsi.scsi_Command 3 = 0)
    (hdata : ioreq.io_Data.scsi.scsi_Data = some data) :
    ∃ resp : Buffer,
      (handle_scsi_command env hist unit ioreq).ioreq.io_Data.scsi.scsi_Data = some resp ∧
      (∀ k, k < 26 → resp (4 + k) = (mode_page_03 unit).getD k 0 % 256) ∧
      (∀ k, k < 25 → resp (30 + k) = (mode_page_04 unit).getD k 0 % 256) := by
  obtain ⟨s2, hs2, hresp, _, _⟩ := mode_sense_data env hist unit ioreq data hop hsub hdata
  simp only [hpage, true_or, if_true] at hs2
  have e3 : ∀ b : Buffer, emit (b, 4) (mode_page_03 unit) =
      ((emit (b, 4) (mode_page_03 unit)).1, 30) := fun b =>
    Prod.ext rfl (by rw [emit_snd _ _ _ (by rw [mode_page_03_length]; omega), mode_page_03_length])
  rw [e3] at hs2
  refine ⟨_, hresp, ?_, ?_⟩
  · intro k hk
    have hne : 4 + k ≠ 0 := by omega
    simp only [stb, hne, if_false]
    rw [hs2, emit_fst_of_lt _ _ _ _ (by rw [mode_page_04_length]; omega) (by omega)]
    exact emit_fst_at _ _ _ _ (by rw [mode_page_03_length]; omega)
      (by rw [mode_page_03_length]; exact hk)
  · intro k hk
    have hne : 30 + k ≠ 0 := by omega
    simp only [stb, hne, if_false]
    rw [hs2]
    exact emit_fst_at _ _ _ _ (by rw [mode_page_04_length]; omega)
      (by rw [mode_page_04_length]; exact hk)

/-- C18, evaluated at MODE SENSE(6) with page code 0x3F, for every environment
and unit.  Page 0x03 is emitted with 26 bytes and page 0x04 with 25 bytes, not
the 24 bytes their declared length 0x16 stands for.  A reader that walks from
offset 4 by the declared length arrives at offset 28 and finds the bytes 0, 0
(the tail of page 0x03); the header of page 0x04 (0x04, 0x16) lies at offsets
30 and 31. -/
theorem mode_sense_pages_longer_than_declared (env : Env) (hist : List XferCall)
    (unit : IDEUnit) :
    (mode_page_03 unit).length = 26 ∧ (mode_page_04 unit).length = 25 ∧
    ∃ resp : Buffer,
      (handle_scsi_command env hist unit (modeSenseReq 0x3F)).ioreq.io_Data.scsi.scsi_Data =
        some resp ∧
      ldb resp 4 = 0x03 ∧ ldb resp 5 = 0x16 ∧
      ldb resp (4 + (0x16 + 2)) = 0 ∧ ldb resp (4 + (0x16 + 2) + 1) = 0 ∧
      ldb resp 30 = 0x04 ∧ ldb resp 31 = 0x16 := by
  obtain ⟨resp, hresp, h3, h4⟩ :=
    mode_sense_all_pages_bytes env hist unit (modeSenseReq 0x3F) zeroBuffer rfl rfl rfl rfl
  have a0 : resp (4 + 0) = 0x03 % 256 := h3 0 (by omega)
  have a1 : resp (4 + 1) = 0x16 % 256 := h3 1 (by omega)
  have a24 : resp (4 + 24) = 0 % 256 := h3 24 (by omega)
  have a25 : resp (4 + 25) = 0 % 256 := h3 25 (by omega)
  have c0 : resp (30 + 0) = 0x04 % 256 := h4 0 (by omega)
  have c1 : resp (30 + 1) = 0x16 % 256 := h4 1 (by omega)
  norm_num at a0 a1 a24 a25 c0 c1
  refine ⟨rfl, rfl, resp, hresp, ?_, ?_, ?_, ?_, ?_, ?_⟩ <;> simp [ldb, a0, a1, a24, a25, c0, c1]

/-! ## Geometry and the `present` flag -/

/-- Handed directly to `handle_scsi_command`, two units that are both not
present and differ only in `logicalSectors` get different READ CAPACITY(10)
responses (last LBA 999999 and 1999999), and a READ(10) of LBA 1500000 is
refused for the first and passed to the transfer primitive for the second: the
function has no test of `present` of its own.  Such units do not arrive there,
see `absent_unit_never_reaches_translation`. -/
theorem scsi_reads_geometry_of_absent_unit :
    absentUnitA.present = false ∧ absentUnitB.present = false ∧
    absentUnitB = { absentUnitA with logicalSectors := 2000000 } ∧
    ((handle_scsi_command sampleEnv [] absentUnitA
        (sampleReq 1 HD_SCSICMD 0 0 0 [0x25])).ioreq.io_Data.scsi.scsi_Data).map
      (fun resp => ldl resp 0) = some 999999 ∧
    ((handle_scsi_command sampleEnv [] absentUnitB
        (sampleReq 1 HD_SCSICMD 0 0 0 [0x25])).ioreq.io_Data.scsi.scsi_Data).map
      (fun resp => ldl resp 0) = some 1999999 ∧
    (handle_scsi_command sampleEnv [] absentUnitA
        (sampleReq 1 HD_SCSICMD 0 0 0 [0x28, 0, 0x00, 0x16, 0xE3, 0x60, 0, 0, 1, 0])).calls.length = 0 ∧
    (handle_scsi_command sampleEnv [] absentUnitB
        (sampleReq 1 HD_SCSICMD 0 0 0 [0x28, 0, 0x00, 0x16, 0xE3, 0x60, 0, 0, 1, 0])).calls.length = 1 := by
  refine ⟨rfl, rfl, rfl, by decide, by decide, by decide, by decide⟩

/-- For every SCSI command other than MODE SENSE(6), READ CAPACITY(10), READ(6),
WRITE(6), READ(10) and WRITE(10), and every two units, present or not, that
differ only in their geometry fields (blockSize, logicalSectors, cylinders,
heads, sectorsPerTrack) and for which the identify primitive answers alike,
`handle_scsi_command` produces the same request (response bytes, error, status)
and the same invocations of the transfer primitive, namely none. -/
theorem scsi_geometry_free_commands (env : Env) (hist : List XferCall) (u1 u2 : IDEUnit)
    (ioreq : IOStdReq)
    (hsame : u1.present = u2.present ∧ u1.atapi = u2.atapi ∧
      u1.mediumPresent = u2.mediumPresent ∧ u1.unitOpened = u2.unitOpened ∧
      u1.device_type = u2.device_type ∧ u1.change_count = u2.change_count ∧
      u1.blockShift = u2.blockShift)
    (hid : env.ata_identify u1 = env.ata_identify u2)
    (hop : ldb ioreq.io_Data.scsi.scsi_Command 0 ∉
      [SCSI_CMD_MODE_SENSE_6, SCSI_CMD_READ_CAPACITY_10, SCSI_CMD_READ_6, SCSI_CMD_WRITE_6,
        SCSI_CMD_READ_10, SCSI_CMD_WRITE_10]) :
    handle_scsi_command env hist u1 ioreq = handle_scsi_command env hist u2 ioreq ∧
    (handle_scsi_command env hist u1 ioreq).calls = [] := by
  obtain ⟨_, _, _, _, hdev, _, _⟩ := hsame
  simp only [List.mem_cons, List.mem_singleton, List.mem_nil_iff, or_false, not_or] at hop
  obtain ⟨n1, n2, n3, n4, n5, n6⟩ := hop
  have hsw : ∀ u : IDEUnit, scsi_switch env hist u ioreq.io_Data.scsi =
      if ldb ioreq.io_Data.scsi.scsi_Command 0 = SCSI_CMD_TEST_UNIT_READY then
        ⟨0, { ioreq.io_Data.scsi with scsi_Actual := 0 }, []⟩
      else if ldb ioreq.io_Data.scsi.scsi_Command 0 = SCSI_CMD_INQUIRY then
        scsi_inquiry env u ioreq.io_Data.scsi
      else ⟨toUBYTE HFERR_BadStatus, ioreq.io_Data.scsi, []⟩ := by
    intro u
    unfold scsi_switch
    simp only [if_neg n1, if_neg n2, if_neg n3, if_neg n4, if_neg n5, if_neg n6]
  have hinq : scsi_inquiry env u1 ioreq.io_Data.scsi = scsi_inquiry env u2 ioreq.io_Data.scsi := by
    unfold scsi_inquiry
    rw [hdev, hid]
  have hcalls : (scsi_inquiry env u1 ioreq.io_Data.scsi).calls = [] := by
    unfold scsi_inquiry
    dsimp only
    split
    · rfl
    · split <;> rfl
  constructor
  · unfold handle_scsi_command
    rw [hsw u1, hsw u2, hinq]
  · unfold handle_scsi_command
    rw [hsw u1]
    dsimp only
    split_ifs
    · rfl
    · exact hcalls
    · rfl

/-- The preceding statement at INQUIRY for two units that are not present. -/
theorem scsi_geometry_free_commands_witness :
    (ldb (sampleReq 1 HD_SCSICMD 0 0 0 [0x12]).io_Data.scsi.scsi_Command 0 ∉
      [SCSI_CMD_MODE_SENSE_6, SCSI_CMD_READ_CAPACITY_10, SCSI_CMD_READ_6, SCSI_CMD_WRITE_6,
        SCSI_CMD_READ_10, SCSI_CMD_WRITE_10]) ∧
    handle_scsi_command sampleEnv [] absentUnitA (sampleReq 1 HD_SCSICMD 0 0 0 [0x12]) =
      handle_scsi_command sampleEnv [] absentUnitB (sampleReq 1 HD_SCSICMD 0 0 0 [0x12]) :=
  ⟨by decide,
    (scsi_geometry_free_commands sampleEnv [] absentUnitA absentUnitB
      (sampleReq 1 HD_SCSICMD 0 0 0 [0x12]) ⟨rfl, rfl, rfl, rfl, rfl, rfl, rfl⟩ rfl (by decide)).1⟩

/-! ## SCSI transfer commands -/

theorem toBYTE_toUBYTE (x : Int) (h : -128 ≤ x ∧ x ≤ 127) : toBYTE (toUBYTE x) = x := by
  unfold toBYTE toUBYTE
  split <;> omega

/-- The low 32 bits of the arithmetic shift of the signed 64-bit value are those
of the logical shift of its bit pattern, for shift counts up to 32. -/
theorem asr_low32 (n sh : Nat) (hn : n < 2 ^ 64) (hs : sh ≤ 32) :
    toULONG (toLONGLONG n >>> sh) = (n >>> sh) % 4294967296 := by
  unfold toULONG toLONGLONG
  rw [Int.shiftRight_eq_div_pow, Nat.shiftRight_eq_div_pow]
  norm_num at hn
  interval_cases sh <;> norm_num <;> split <;> omega

/-- The 64-bit pattern built from the two offset words. -/
theorem offset_pattern (a o : Nat) (ho : o < 2 ^ 32) : (a <<< 32) ||| o = a * 2 ^ 32 + o := by
  rw [Nat.shiftLeft_eq, Nat.mul_comm, ← Nat.mul_add_lt_is_or ho]

theorem native_lba_eq (ioreq : IOStdReq) (sh : Nat) (ha : ioreq.io_Actual < 2 ^ 32)
    (ho : ioreq.io_Offset < 2 ^ 32) (hs : sh ≤ 32) :
    native_lba ioreq sh = (((ioreq.io_Actual <<< 32) ||| ioreq.io_Offset) >>> sh) % 4294967296 := by
  unfold native_lba
  apply asr_low32 _ _ _ hs
  rw [offset_pattern _ _ ho]
  norm_num at ha ho ⊢
  omega

/-- The read, write and format cases of `ide_task` run the shared transfer body
with the direction of the opcode. -/
theorem ide_task_request_of_transfer (env : Env) (s : WorkerState) (ioreq : IOStdReq)
    (direction : xfer_dir)
    (hop : (ioreq.io_Command ∈ [CMD_READ, TD_READ64, NSCMD_TD_READ64] ∧
        direction = xfer_dir.READ) ∨
      (ioreq.io_Command ∈ [CMD_WRITE, TD_WRITE64, TD_FORMAT64, NSCMD_TD_WRITE64,
        NSCMD_TD_FORMAT64] ∧ direction = xfer_dir.WRITE)) :
    ide_task_request env s ioreq =
      { s with
        calls := s.calls ++
          (ide_task_transfer env s.calls (derefUnit env s.dev ioreq.io_Unit) ioreq direction).2
        replies := s.replies ++
          [(ide_task_transfer env s.calls (derefUnit env s.dev ioreq.io_Unit) ioreq direction).1] } := by
  simp only [List.mem_cons, List.mem_singleton, List.mem_nil_iff, or_false] at hop
  unfold ide_task_request
  rcases hop with ⟨h | h | h, hd⟩ | ⟨h | h | h | h | h, hd⟩ <;>
    simp [h, hd, CMD_READ, TD_READ64, NSCMD_TD_READ64, CMD_WRITE, TD_WRITE64, TD_FORMAT64,
      NSCMD_TD_WRITE64, NSCMD_TD_FORMAT64]

/-- C15. For every native block request (typed `ULONG` offset words, a unit
whose `blockShift` is a defined shift count) that passes the range check in
`ide_task`, the transfer primitive is invoked exactly once, with lba the low 32
bits of `((io_Actual << 32) | io_Offset) >> blockShift` and count
`io_Length >> blockShift`, with direction READ for CMD_READ, TD_READ64 and
NSCMD_TD_READ64 and WRITE for every write and format opcode, and the request is
replied to with `io_Error` equal to the `BYTE` status of the primitive.  For
CMD_READ and CMD_WRITE submitted through `begin_io` the high offset word
`io_Actual` is cleared before the request is forwarded, so the lba is
`io_Offset >> blockShift` whatever `io_Actual` the caller supplied. -/
theorem native_transfer_invokes_primitive_once (env : Env) (s : WorkerState) (ioreq : IOStdReq)
    (direction : xfer_dir)
    (ha : ioreq.io_Actual < 2 ^ 32) (ho : ioreq.io_Offset < 2 ^ 32)
    (hsh : (derefUnit env s.dev ioreq.io_Unit).blockShift < 32)
    (hop : (ioreq.io_Command ∈ [CMD_READ, TD_READ64, NSCMD_TD_READ64] ∧
        direction = xfer_dir.READ) ∨
      (ioreq.io_Command ∈ [CMD_WRITE, TD_WRITE64, TD_FORMAT64, NSCMD_TD_WRITE64,
        NSCMD_TD_FORMAT64] ∧ direction = xfer_dir.WRITE))
    (hpass : ¬ (toULONG
        (((((ioreq.io_Actual <<< 32) ||| ioreq.io_Offset) >>>
              (derefUnit env s.dev ioreq.io_Unit).blockShift) % 4294967296 : Nat) +
          ((ioreq.io_Length >>> (derefUnit env s.dev ioreq.io_Unit).blockShift : Nat) : Int)) >
        toULONG (((derefUnit env s.dev ioreq.io_Unit).logicalSectors : Int) - 1))) :
    ((ide_task_request env s ioreq).calls = s.calls ++
        [⟨ioreq.io_Data.buffer,
          (((ioreq.io_Actual <<< 32) ||| ioreq.io_Offset) >>>
            (derefUnit env s.dev ioreq.io_Unit).blockShift) % 4294967296,
          ioreq.io_Length >>> (derefUnit env s.dev ioreq.io_Unit).blockShift,
          ioreq.io_Actual, derefUnit env s.dev ioreq.io_Unit, direction⟩] ∧
      ∃ reply : IOStdReq, (ide_task_request env s ioreq).replies = s.replies ++ [reply] ∧
        reply.io_Message = ioreq.io_Message ∧
        ∀ status : Int, -128 ≤ status ∧ status ≤ 127 →
          (env.ata_transfer s.calls ⟨ioreq.io_Data.buffer,
            (((ioreq.io_Actual <<< 32) ||| ioreq.io_Offset) >>>
              (derefUnit env s.dev ioreq.io_Unit).blockShift) % 4294967296,
            ioreq.io_Length >>> (derefUnit env s.dev ioreq.io_Unit).blockShift,
            ioreq.io_Actual, derefUnit env s.dev ioreq.io_Unit, direction⟩).status = status →
          reply.io_Error = status) ∧
    (∀ (dev : DeviceBase) (req : IOStdReq) (i : Fin MAX_UNITS) (sh : Nat),
      req.io_Unit = some i → req.io_Command = CMD_READ ∨ req.io_Command = CMD_WRITE →
      req.io_Offset < 2 ^ 32 → sh < 32 →
      (begin_io dev req).2 = Disposition.queued dev.IDETaskMP ∧
      (begin_io dev req).1.io_Actual = 0 ∧
      (begin_io dev req).1.io_Offset = req.io_Offset ∧
      native_lba (begin_io dev req).1 sh = req.io_Offset >>> sh) := by
  constructor
  · have hl := native_lba_eq ioreq (derefUnit env s.dev ioreq.io_Unit).blockShift ha ho
      (Nat.le_of_lt hsh)
    have htr : ide_task_transfer env s.calls (derefUnit env s.dev ioreq.io_Unit) ioreq direction =
        ({ ioreq with
            io_Error := toBYTE (toUBYTE (env.ata_transfer s.calls
              ⟨ioreq.io_Data.buffer,
                native_lba ioreq (derefUnit env s.dev ioreq.io_Unit).blockShift,
                native_count ioreq (derefUnit env s.dev ioreq.io_Unit).blockShift,
                ioreq.io_Actual, derefUnit env s.dev ioreq.io_Unit, direction⟩).status)
            io_Actual := (env.ata_transfer s.calls
              ⟨ioreq.io_Data.buffer,
                native_lba ioreq (derefUnit env s.dev ioreq.io_Unit).blockShift,
                native_count ioreq (derefUnit env s.dev ioreq.io_Unit).blockShift,
                ioreq.io_Actual, derefUnit env s.dev ioreq.io_Unit, direction⟩).actual
            io_Data := { ioreq.io_Data with buffer := (env.ata_transfer s.calls
              ⟨ioreq.io_Data.buffer,
                native_lba ioreq (derefUnit env s.dev ioreq.io_Unit).blockShift,
                native_count ioreq (derefUnit env s.dev ioreq.io_Unit).blockShift,
                ioreq.io_Actual, derefUnit env s.dev ioreq.io_Unit, direction⟩).data } },
          [⟨ioreq.io_Data.buffer,
            native_lba ioreq (derefUnit env s.dev ioreq.io_Unit).blockShift,
            native_count ioreq (derefUnit env s.dev ioreq.io_Unit).blockShift,
            ioreq.io_Actual, derefUnit env s.dev ioreq.io_Unit, direction⟩]) := by
      have hpass2 : ¬ (toULONG
          ((native_lba ioreq (derefUnit env s.dev ioreq.io_Unit).blockShift : Int) +
            (native_count ioreq (derefUnit env s.dev ioreq.io_Unit).blockShift : Int)) >
          toULONG (((derefUnit env s.dev ioreq.io_Unit).logicalSectors : Int) - 1)) := by
        rw [hl]
        exact hpass
      unfold ide_task_transfer
      simp only [if_neg hpass2]
    rw [ide_task_request_of_transfer env s ioreq direction hop, htr]
    rw [hl]
    refine ⟨rfl, _, rfl, rfl, ?_⟩
    intro status hb hst
    have hst2 : (env.ata_transfer s.calls ⟨ioreq.io_Data.buffer,
        (((ioreq.io_Actual <<< 32) ||| ioreq.io_Offset) >>>
          (derefUnit env s.dev ioreq.io_Unit).blockShift) % 4294967296,
        native_count ioreq (derefUnit env s.dev ioreq.io_Unit).blockShift,
        ioreq.io_Actual, derefUnit env s.dev ioreq.io_Unit, direction⟩).status = status := hst
    show toBYTE (toUBYTE _) = status
    rw [hst2]
    exact toBYTE_toUBYTE _ hb
  · intro dev req i sh hu hc ho2 hs2
    have hq : (begin_io dev req).2 = Disposition.queued dev.IDETaskMP ∧
        (begin_io dev req).1.io_Actual = 0 ∧ (begin_io dev req).1.io_Offset = req.io_Offset := by
      unfold begin_io
      rcases hc with h | h <;>
        simp [hu, h, begin_io_forward, CMD_READ, CMD_WRITE, TD_MOTOR, CMD_CLEAR, CMD_UPDATE,
          TD_CHANGENUM, TD_GETDRIVETYPE, TD_GETGEOMETRY, TD_CHANGESTATE]
    obtain ⟨q1, q2, q3⟩ := hq
    refine ⟨q1, q2, q3, ?_⟩
    rw [native_lba_eq _ sh (by rw [q2]; norm_num) (by rw [q3]; exact ho2) (Nat.le_of_lt hs2),
      q2, q3, offset_pattern _ _ ho2, Nat.zero_mul, Nat.zero_add]
    apply Nat.mod_eq_of_lt
    rw [Nat.shiftRight_eq_div_pow]
    have : req.io_Offset / 2 ^ sh ≤ req.io_Offset := Nat.div_le_self _ _
    norm_num at ho2
    omega

/-- C15, at a CMD_READ of the first block of the sample unit, and at a CMD_READ
submitted to `begin_io` with a stray high offset word. -/
theorem native_transfer_invokes_primitive_once_witness :
    ((sampleReq 3 CMD_READ 0 0 512 []).io_Actual < 2 ^ 32 ∧
      (sampleReq 3 CMD_READ 0 0 512 []).io_Offset < 2 ^ 32) ∧
    (ide_task_request sampleEnv ⟨sampleDev, [], [], true⟩ (sampleReq 3 CMD_READ 0 0 512 [])).calls.map
      (fun c => (c.lba, c.count, c.direction)) = [(0, 1, xfer_dir.READ)] ∧
    (begin_io sampleDev (sampleReq 3 CMD_READ 0x200 1024 512 [])).1.io_Actual = 0 ∧
    native_lba (begin_io sampleDev (sampleReq 3 CMD_READ 0x200 1024 512 [])).1 9 = 2 := by
  have w := native_transfer_invokes_primitive_once sampleEnv ⟨sampleDev, [], [], true⟩
    (sampleReq 3 CMD_READ 0 0 512 []) xfer_dir.READ (by decide) (by decide) (by decide)
    (Or.inl ⟨by decide, rfl⟩) (by decide)
  have w2 := w.2 sampleDev (sampleReq 3 CMD_READ 0x200 1024 512 []) ⟨0, by decide⟩ 9 rfl
    (Or.inl rfl) (by decide) (by decide)
  refine ⟨⟨by decide, by decide⟩, ?_, w2.2.1, ?_⟩
  · rw [w.1.1]
    decide
  · rw [w2.2.2.2]
    decide

/-! ## The Change-Detection Task -/

/-- C16. When a poll of a removable unit whose stored media-present flag is
Absent finds the medium Present, the unit's `change_count` increases by exactly
1, the flag becomes Present, and the listeners invoked are exactly the
registered ones, each once, in registration order; a following poll that still
finds the medium invokes no listener and leaves `change_count` alone. -/
theorem diskchange_absent_to_present (u : PolledUnit) (probe : MediaProbe)
    (hp : u.unit.present = true) (hrem : u.unit.atapi = true)
    (habs : u.unit.mediumPresent = false) (hnow : probe.present = true) :
    (diskchange_poll u probe).1.unit.change_count = u.unit.change_count + 1 ∧
    (diskchange_poll u probe).1.unit.mediumPresent = true ∧
    (diskchange_poll u probe).2 = u.changeints ∧
    (diskchange_poll u probe).1.changeints = u.changeints ∧
    (∀ probe2 : MediaProbe, probe2.present = true →
      (diskchange_poll (diskchange_poll u probe).1 probe2).2 = [] ∧
      (diskchange_poll (diskchange_poll u probe).1 probe2).1.unit.change_count =
        u.unit.change_count + 1 ∧
      (diskchange_task u [probe, probe2]).2 = u.changeints) := by
  have h1 : diskchange_poll u probe =
      ({ u with
          unit :=
            { u.unit with
              change_count := u.unit.change_count + 1
              mediumPresent := true
              blockSize := probe.blockSize
              blockShift := probe.blockShift
              logicalSectors := probe.logicalSectors
              cylinders := probe.cylinders
              heads := probe.heads
              sectorsPerTrack := probe.sectorsPerTrack } }, u.changeints) := by
    unfold diskchange_poll
    simp [hp, hrem, habs, hnow]
  have h2 : ∀ probe2 : MediaProbe, probe2.present = true →
      diskchange_poll (diskchange_poll u probe).1 probe2 = ((diskchange_poll u probe).1, []) := by
    intro probe2 hn2
    rw [h1]
    unfold diskchange_poll
    simp [hn2]
  refine ⟨by rw [h1], by rw [h1], by rw [h1], by rw [h1], ?_⟩
  intro probe2 hn2
  refine ⟨by rw [h2 probe2 hn2], ?_, ?_⟩
  · rw [h2 probe2 hn2, h1]
  · simp [diskchange_task, h2 probe2 hn2]
    rw [h1]

/-- C16, at a drive with listeners 11, 12, 13 and change count 7. -/
theorem diskchange_absent_to_present_witness :
    (polledDrive.unit.present = true ∧ polledDrive.unit.atapi = true ∧
      polledDrive.unit.mediumPresent = false ∧ discProbe.present = true) ∧
    (diskchange_poll polledDrive discProbe).1.unit.change_count = 8 ∧
    (diskchange_poll polledDrive discProbe).2 = [11, 12, 13] :=
  ⟨⟨rfl, rfl, rfl, rfl⟩,
    (diskchange_absent_to_present polledDrive discProbe rfl rfl rfl rfl).1,
    (diskchange_absent_to_present polledDrive discProbe rfl rfl rfl rfl).2.2.1⟩

/-! ## Advertised opcodes and the worker -/

/-- C17, evaluated with the worker running, for every environment.  The opcodes
TD_CHANGESTATE, TD_PROTSTATUS, TD_ADDCHANGEINT, TD_REMCHANGEINT and TD_EJECT are
listed in `supported_commands`; `begin_io` forwards each to the worker, and
`ide_task`, which has no case for them, replies with `IOERR_NOCMD`. -/
theorem advertised_opcodes_end_with_nocmd (env : Env) :
    [TD_CHANGESTATE, TD_PROTSTATUS, TD_ADDCHANGEINT, TD_REMCHANGEINT, TD_EJECT].all
      (fun c => decide (c ∈ supported_commands)) = true ∧
    [TD_CHANGESTATE, TD_PROTSTATUS, TD_ADDCHANGEINT, TD_REMCHANGEINT, TD_EJECT].map
      (fun c => (begin_io sampleDev (sampleReq 1 c 0 0 0 [])).2) =
      List.replicate 5 (Disposition.queued (some 2)) ∧
    [TD_CHANGESTATE, TD_PROTSTATUS, TD_ADDCHANGEINT, TD_REMCHANGEINT, TD_EJECT].map
      (fun c => (ide_task env sampleDev (some 2)
        [(begin_io sampleDev (sampleReq 1 c 0 0 0 [])).1]).1.replies.map (fun r => r.io_Error)) =
      List.replicate 5 [IOERR_NOCMD] := by
  refine ⟨by decide, by decide, ?_⟩
  simp [ide_task, ide_task_loop, ide_task_request, begin_io, begin_io_forward, sampleReq,
    TD_CHANGESTATE, TD_PROTSTATUS, TD_ADDCHANGEINT, TD_REMCHANGEINT, TD_EJECT, CMD_READ,
    TD_READ64, NSCMD_TD_READ64, CMD_WRITE, TD_WRITE64, TD_FORMAT64, NSCMD_TD_WRITE64,
    NSCMD_TD_FORMAT64, HD_SCSICMD, CMD_DIE, TD_MOTOR, CMD_CLEAR, CMD_UPDATE, TD_CHANGENUM,
    TD_GETDRIVETYPE, TD_GETGEOMETRY]

/-! ## `open` -/

/-- Every failing path of `open` leaves the device base as it was and stores a
non-zero error: `TDERR_BadUnitNum` for a non-zero `lun` byte or a unit that is
not present, `IOERR_OPENFAIL` for a unit index beyond `MAX_UNITS` or a worker
that is not active; `open` succeeds exactly when none of these applies. -/
theorem device_open_outcome (changestate : IDEUnit → IDEUnit) (dev : DeviceBase)
    (ioreq : IOStdReq) (unitnum flags : Nat) :
    ((device_open changestate dev ioreq unitnum flags).2.io_Error = 0 ↔
      ((unitnum / 10) % 256 = 0 ∧ ∃ h : unitnum % 10 < MAX_UNITS,
        (dev.units ⟨unitnum % 10, h⟩).present = true ∧
        ¬ (dev.IDETask = none ∨ dev.IDETaskActive = false))) ∧
    ((device_open changestate dev ioreq unitnum flags).2.io_Error ≠ 0 →
      (device_open changestate dev ioreq unitnum flags).1 = dev ∧
      ((device_open changestate dev ioreq unitnum flags).2.io_Error = TDERR_BadUnitNum ∨
        (device_open changestate dev ioreq unitnum flags).2.io_Error = IOERR_OPENFAIL)) := by
  unfold device_open
  by_cases h1 : (unitnum / 10) % 256 ≠ 0
  · simp [h1, TDERR_BadUnitNum]
  · by_cases h2 : unitnum % 10 ≥ MAX_UNITS
    · have h2n : ¬ unitnum % 10 < MAX_UNITS := Nat.not_lt.mpr h2
      simp [h1, h2, h2n, IOERR_OPENFAIL]
    · have h2p : unitnum % 10 < MAX_UNITS := Nat.lt_of_not_le h2
      by_cases h3 : (dev.units ⟨unitnum % 10, h2p⟩).present = false
      · simp [h1, h2, h2p, h3, TDERR_BadUnitNum]
      · by_cases h4 : dev.IDETask = none ∨ dev.IDETaskActive = false
        · simp only [h1, h2, h3, h4, dite_false, if_false, if_true]
          simp [h2p, h4, IOERR_OPENFAIL]
        · simp only [h1, h2, h3, h4, dite_false, if_false]
          simp at h1 h3
          simp [h1, h2p, h3, h4]

/-- C19, evaluated at unit number 2560 on a device whose unit 0 is present and
whose worker is active, for every change-state probe.  The unit number is not
below `MAX_UNITS` and `unitnum / 10` is 256, but `lun` is a `UBYTE` and becomes
0: the open succeeds on unit 0 (error 0, open count 0 to 1, unit marked opened,
`io_Unit` set to unit 0). -/
theorem open_accepts_truncated_lun (changestate : IDEUnit → IDEUnit) :
    ¬ (2560 < MAX_UNITS) ∧ 2560 / 10 = 256 ∧
    (device_open changestate freshDev (unitlessReq 0) 2560 0).2.io_Error = 0 ∧
    (device_open changestate freshDev (unitlessReq 0) 2560 0).2.io_Unit = some ⟨0, by decide⟩ ∧
    freshDev.lib_OpenCnt = 0 ∧
    (device_open changestate freshDev (unitlessReq 0) 2560 0).1.lib_OpenCnt = 1 ∧
    (freshDev.units ⟨0, by decide⟩).unitOpened = false ∧
    ((device_open changestate freshDev (unitlessReq 0) 2560 0).1.units ⟨0, by decide⟩).unitOpened =
      true := by
  refine ⟨by decide, by decide, rfl, rfl, rfl, rfl, rfl, rfl⟩

/-! ## Units that are not present and the translation layer -/

end Lide
